import Mathlib

/-!
Formal model of the legislative-redline core: the Amendment Instruction
Parser, the Structural Navigator (subsection extractor) and the Amendment
Applier, embedded shallowly from
`backend/app/services/amendment_parser.py` and
`backend/app/services/subsection_extractor.py`.

Texts are modelled as `List Char`.  Python `re` patterns are modelled by a
small prioritized backtracking matcher (`Rx` / `mrun`): alternation prefers
the left branch, greedy repetition prefers longer matches and lazy
repetition shorter ones, and `search` returns the leftmost match — the
same first-match semantics as CPython's `re` module on the pattern subset
the source uses (no backreferences, no lookbehind).  Character
classification (`\s`, `\w`, `\d`, `lower()`, …) is modelled on the ASCII
range, which covers every character the source's patterns can accept.
-/

set_option maxHeartbeats 4000000
set_option maxRecDepth 8000

namespace LegRedline

/-- Texts are lists of characters. -/
abbrev Str := List Char

/-- Coerce a Lean string literal to the `List Char` text model. -/
def str (s : String) : Str := s.data

/-! ## Python string primitives -/

/-- Python `\s` / `str.strip` whitespace, ASCII range. -/
def isWsPy (c : Char) : Bool :=
  c == ' ' || c == '\t' || c == '\n' || c == '\r' || c == '\x0b' || c == '\x0c'

/-- ASCII decimal digit (`\d`, `str.isdigit` on the ASCII range); code
points 48–57 are `'0'`–`'9'`. -/
def isDigitC (c : Char) : Bool := 48 ≤ c.toNat && c.toNat ≤ 57

/-- ASCII lowercase letter; code points 97–122 are `'a'`–`'z'`. -/
def isLowerC (c : Char) : Bool := 97 ≤ c.toNat && c.toNat ≤ 122

/-- ASCII uppercase letter; code points 65–90 are `'A'`–`'Z'`. -/
def isUpperC (c : Char) : Bool := 65 ≤ c.toNat && c.toNat ≤ 90

/-- ASCII letter. -/
def isAlphaC (c : Char) : Bool := isLowerC c || isUpperC c

/-- Python regex `\w` on the ASCII range. -/
def isWordC (c : Char) : Bool := isAlphaC c || isDigitC c || c == '_'

/-- Lowercase a text (Python `str.lower`, ASCII range). -/
def lowerS (s : Str) : Str := s.map Char.toLower

/-- Python `str.find` (auxiliary, carrying the current index). -/
def findSubAux (pat : Str) : Str → Nat → Option Nat
  | [], i => if pat.isEmpty then some i else none
  | c :: t, i =>
    if pat.isPrefixOf (c :: t) then some i else findSubAux pat t (i + 1)

/-- Python `str.find`: index of the leftmost occurrence of `pat`. -/
def findSub (pat s : Str) : Option Nat := findSubAux pat s 0

/-- Python substring test `pat in s`. -/
def containsSub (pat s : Str) : Bool := (findSub pat s).isSome

/-- Case-insensitive leftmost occurrence (model of
`re.compile(re.escape(pat), re.IGNORECASE).search`). -/
def findSubCI (pat s : Str) : Option Nat := findSub (lowerS pat) (lowerS s)

/-- Python `str.rfind` for a single character (auxiliary). -/
def rfindCharAux (c : Char) : Str → Nat → Option Nat → Option Nat
  | [], _, acc => acc
  | d :: t, i, acc => rfindCharAux c t (i + 1) (if d == c then some i else acc)

/-- Python `str.rfind` for a single character. -/
def rfindChar (s : Str) (c : Char) : Option Nat := rfindCharAux c s 0 none

/-- Python `str.lstrip()`. -/
def lstripPy (s : Str) : Str := s.dropWhile isWsPy

/-- Python `str.rstrip()`. -/
def rstripPy (s : Str) : Str := (s.reverse.dropWhile isWsPy).reverse

/-- Python `str.strip()`. -/
def stripPy (s : Str) : Str := rstripPy (lstripPy s)

/-- Python `str.strip(chars)` for an explicit character set. -/
def stripChars (cs : Str) (s : Str) : Str :=
  ((s.dropWhile (fun c => cs.contains c)).reverse.dropWhile
    (fun c => cs.contains c)).reverse

/-- Python `str.replace(pat, rep, 1)`: replace the leftmost occurrence. -/
def replaceFirstPy (pat rep s : Str) : Str :=
  match pat with
  | [] => rep ++ s
  | _ =>
    match findSub pat s with
    | none => s
    | some i => s.take i ++ rep ++ s.drop (i + pat.length)

/-- Auxiliary for `replaceAllPy` (non-empty pattern); the fuel is the
length of the remaining text, so it never runs out. -/
def replaceAllPyAux (pat rep : Str) : Nat → Str → Str
  | _, [] => []
  | 0, s => s
  | fuel + 1, c :: t =>
    if pat.isPrefixOf (c :: t) then
      rep ++ replaceAllPyAux pat rep fuel (t.drop (pat.length - 1))
    else
      c :: replaceAllPyAux pat rep fuel t

/-- Python `str.replace(pat, rep)` (all occurrences).  An empty pattern
splices `rep` before every character and at the end, as CPython does. -/
def replaceAllPy (pat rep s : Str) : Str :=
  if pat.isEmpty then rep ++ s.flatMap (fun c => c :: rep)
  else replaceAllPyAux pat rep s.length s

/-- Case-insensitive prefix test. -/
def ciPrefix (pat s : Str) : Bool := (lowerS pat).isPrefixOf (lowerS s)

/-- Replace the leftmost case-insensitive occurrence of `pat`
(model of `pattern.sub(rep, s, count=1)` for an escaped literal). -/
def replaceFirstCI (pat rep s : Str) : Str :=
  match findSubCI pat s with
  | none => s
  | some i => s.take i ++ rep ++ s.drop (i + pat.length)

/-- Auxiliary for `replaceAllCI` (non-empty pattern); the fuel is the
length of the remaining text, so it never runs out. -/
def replaceAllCIAux (pat rep : Str) : Nat → Str → Str
  | _, [] => []
  | 0, s => s
  | fuel + 1, c :: t =>
    if ciPrefix pat (c :: t) then
      rep ++ replaceAllCIAux pat rep fuel (t.drop (pat.length - 1))
    else
      c :: replaceAllCIAux pat rep fuel t

/-- Replace every case-insensitive occurrence of `pat`
(model of `pattern.sub(rep, s)` for an escaped literal). -/
def replaceAllCI (pat rep s : Str) : Str :=
  if pat.isEmpty then rep ++ s.flatMap (fun c => c :: rep)
  else replaceAllCIAux pat rep s.length s

/-- Python `str.isdigit` on the ASCII range. -/
def pyIsDigitS (s : Str) : Bool := !s.isEmpty && s.all isDigitC

/-- Python `str.islower` (ASCII): at least one cased character and every
cased character lowercase. -/
def pyIsLowerS (s : Str) : Bool :=
  s.any isAlphaC && s.all (fun c => !isAlphaC c || isLowerC c)

/-- Python `str.isupper` (ASCII). -/
def pyIsUpperS (s : Str) : Bool :=
  s.any isAlphaC && s.all (fun c => !isAlphaC c || isUpperC c)

/-- Python `str.isalpha` on the ASCII range. -/
def pyIsAlphaS (s : Str) : Bool := !s.isEmpty && s.all isAlphaC

/-- Python `int(s)` for a string of decimal digits. -/
def digitsToNat (s : Str) : Nat :=
  s.foldl (fun acc c => 10 * acc + (c.toNat - '0'.toNat)) 0

/-- Index of the first occurrence of `x` in a list (auxiliary). -/
def posInListAux (x : Str) : List Str → Nat → Option Nat
  | [], _ => none
  | y :: t, i => if y == x then some i else posInListAux x t (i + 1)

/-- Python `list.index`, returned as an `Option`. -/
def posInList (x : Str) (l : List Str) : Option Nat := posInListAux x l 0

/-! ## A prioritized backtracking regex matcher

`Rx` covers the constructs the source's patterns use: literal characters,
character classes (`sym`), concatenation, prioritized alternation, greedy
and lazy repetition, numbered capture groups, positive and negative
lookahead, `$` (`eol`, which matches at the end of the text or before a
final trailing newline) and `\Z` (`eos`).  `mrun` enumerates degrees of
freedom in the same priority order CPython's backtracking engine explores
them, so the head of the returned list is the match `re` would produce. -/

inductive Rx : Type where
  | eps : Rx
  | sym : (Char → Bool) → Rx
  | seq : Rx → Rx → Rx
  | alt : Rx → Rx → Rx
  | star : Bool → Rx → Rx
  | grp : Nat → Rx → Rx
  | look : Bool → Rx → Rx
  | eol : Rx
  | eos : Rx

/-- Captured groups: association list, most recent first. -/
abbrev Caps := List (Nat × Str)

/-- Record a capture. -/
def setCap (n : Nat) (v : Str) (cs : Caps) : Caps := (n, v) :: cs

/-- Look up a capture (`match.group(n)`); `none` when the group did not
participate in the match. -/
def getCap (n : Nat) : Caps → Option Str
  | [] => none
  | (m, v) :: t => if m == n then some v else getCap n t

/-- Structural size of a pattern, used to compute a sufficient fuel. -/
def Rx.size : Rx → Nat
  | .eps => 1
  | .sym _ => 1
  | .seq a b => a.size + b.size + 1
  | .alt a b => a.size + b.size + 1
  | .star _ r => r.size + 1
  | .grp _ r => r.size + 1
  | .look _ r => r.size + 1
  | .eol => 1
  | .eos => 1

/-- Run a pattern against a suffix of the subject, producing every
(captures, remaining-suffix) outcome in priority order.  The recursion is
structural on `fuel`, which bounds the depth of the evaluation: every
descent into a subpattern and every repetition unfolding costs one unit,
and since every repetition body in the embedded patterns consumes at least
one character (enforced here by the length guard), a fuel of
`(size + 1) * (length + 2)` can never run out. -/
def mrun : Nat → Rx → Caps → Str → List (Caps × Str)
  | 0, _, _, _ => []
  | fuel + 1, rx, cs, s =>
    match rx with
    | .eps => [(cs, s)]
    | .sym p =>
      match s with
      | [] => []
      | c :: t => if p c then [(cs, t)] else []
    | .seq a b => (mrun fuel a cs s).flatMap (fun q => mrun fuel b q.1 q.2)
    | .alt a b => mrun fuel a cs s ++ mrun fuel b cs s
    | .star g r =>
      let iter := (mrun fuel r cs s).flatMap (fun q =>
        if q.2.length < s.length then mrun fuel (.star g r) q.1 q.2 else [])
      if g then iter ++ [(cs, s)] else (cs, s) :: iter
    | .grp n r =>
      (mrun fuel r cs s).map (fun q =>
        (setCap n (s.take (s.length - q.2.length)) q.1, q.2))
    | .look neg r =>
      let m := !(mrun fuel r cs s).isEmpty
      if (if neg then !m else m) then [(cs, s)] else []
    | .eol => if s == [] || s == ['\n'] then [(cs, s)] else []
    | .eos => if s.isEmpty then [(cs, s)] else []

/-- Try a pattern anchored at the start of `s` (Python `re.match`),
returning the matched text and the captures of the preferred match. -/
def tryAt (r : Rx) (s : Str) : Option (Str × Caps) :=
  match mrun ((r.size + 1) * (s.length + 2)) r [] s with
  | [] => none
  | q :: _ => some (s.take (s.length - q.2.length), q.1)

/-- Auxiliary for `rsearch`: scan start positions left to right. -/
def rsearchAux (r : Rx) : Nat → Str → Option (Nat × Str × Caps)
  | i, s =>
    match tryAt r s with
    | some (m, cs) => some (i, m, cs)
    | none =>
      match s with
      | [] => none
      | _ :: t => rsearchAux r (i + 1) t

/-- Python `re.search`: leftmost match, as (start index, matched text,
captures). -/
def rsearch (r : Rx) (s : Str) : Option (Nat × Str × Caps) := rsearchAux r 0 s

/-- Auxiliary for `rfinditer`, with fuel and a base offset. -/
def rfinditerAux (r : Rx) : Nat → Nat → Str → List (Nat × Str × Caps)
  | 0, _, _ => []
  | fuel + 1, base, s =>
    match rsearch r s with
    | none => []
    | some (off, m, cs) =>
      if m.length == 0 then
        (base + off, m, cs) :: rfinditerAux r fuel (base + off + 1) (s.drop (off + 1))
      else
        (base + off, m, cs) ::
          rfinditerAux r fuel (base + off + m.length) (s.drop (off + m.length))

/-- Python `re.finditer`: successive non-overlapping leftmost matches. -/
def rfinditer (r : Rx) (s : Str) : List (Nat × Str × Caps) :=
  rfinditerAux r (s.length + 1) 0 s

/-- Slice a text around match spans (auxiliary for `rsplit`). -/
def rsplitAux (s : Str) : Nat → List (Nat × Str × Caps) → List Str
  | pos, [] => [s.drop pos]
  | pos, (st, m, _) :: rest =>
    ((s.drop pos).take (st - pos)) :: rsplitAux s (st + m.length) rest

/-- Python `re.split` for a pattern without capture groups. -/
def rsplit (r : Rx) (s : Str) : List Str := rsplitAux s 0 (rfinditer r s)

/-! ## Pattern construction helpers -/

/-- Single literal character. -/
def rxChar (c : Char) : Rx := .sym (fun d => d == c)

/-- Single literal character, case-insensitive. -/
def rxCharCI (c : Char) : Rx := .sym (fun d => d.toLower == c.toLower)

/-- Literal word. -/
def rxLit (w : String) : Rx := w.data.foldr (fun c acc => .seq (rxChar c) acc) .eps

/-- Literal word under `re.IGNORECASE`. -/
def rxLitCI (w : String) : Rx :=
  w.data.foldr (fun c acc => .seq (rxCharCI c) acc) .eps

/-- Concatenation of a list of patterns. -/
def rxSeqL (l : List Rx) : Rx := l.foldr .seq .eps

/-- Prioritized alternation of a non-empty list of patterns
(an empty list yields the never-matching `(?!)`-like pattern). -/
def rxAltL : List Rx → Rx
  | [] => .look false (.sym (fun _ => false))
  | [r] => r
  | r :: t => .alt r (rxAltL t)

/-- Greedy `p+` over a character class. -/
def rxPlusG (p : Char → Bool) : Rx := .seq (.sym p) (.star true (.sym p))

/-- Lazy `p+?` over a character class. -/
def rxPlusL (p : Char → Bool) : Rx := .seq (.sym p) (.star false (.sym p))

/-- Greedy `p*` over a character class. -/
def rxStarG (p : Char → Bool) : Rx := .star true (.sym p)

/-- Greedy optional `r?`. -/
def rxOpt (r : Rx) : Rx := .alt r .eps

/-- Pattern `\s+`. -/
def rxWsPlus : Rx := rxPlusG isWsPy

/-- Pattern `\s*`. -/
def rxWsStar : Rx := rxStarG isWsPy

/-- Pattern `\d+`. -/
def rxDigitsPlus : Rx := rxPlusG isDigitC

/-- Literal word given as a character list. -/
def rxLitL (w : Str) : Rx := w.foldr (fun c acc => .seq (rxChar c) acc) .eps

/-- Literal word given as a character list, case-insensitive. -/
def rxLitLCI (w : Str) : Rx := w.foldr (fun c acc => .seq (rxCharCI c) acc) .eps

/-! ## Structural Navigator (`subsection_extractor.py`) -/

namespace SubsectionExtractor

/-- Lowercase Roman-numeral letters (the class `[ivxlcdm]`). -/
def isRomanLowerC (c : Char) : Bool :=
  c == 'i' || c == 'v' || c == 'x' || c == 'l' || c == 'c' || c == 'd' || c == 'm'

/-- Uppercase Roman-numeral letters (the class `[IVXLCDM]`). -/
def isRomanUpperC (c : Char) : Bool :=
  c == 'I' || c == 'V' || c == 'X' || c == 'L' || c == 'C' || c == 'D' || c == 'M'

/-- Either-case Roman-numeral letter (a Roman class under `re.IGNORECASE`). -/
def isRomanCI (c : Char) : Bool := isRomanLowerC c.toLower

/-- `ANY_MARKER_PATTERN`: regex
`\(([a-z]|\d+|[A-Z]|[ivxlcdm]+|[IVXLCDM]+)\)` with `re.IGNORECASE`
(each letter class therefore accepts both cases). -/
def ANY_MARKER_PATTERN : Rx :=
  rxSeqL [rxChar '(',
    .grp 1 (rxAltL [
      .sym isAlphaC,
      rxDigitsPlus,
      .sym isAlphaC,
      rxPlusG isRomanCI,
      rxPlusG isRomanCI]),
    rxChar ')']

/-- Regex `\(([^)]+)\)` used by `_parse_subsection_notation` via `re.findall`. -/
def NOTATION_COMPONENT_PATTERN : Rx :=
  rxSeqL [rxChar '(', .grp 1 (rxPlusG (fun c => c != ')')), rxChar ')']

/-- `_parse_subsection_notation`: all parenthesized components of an
address such as `(b)(1)`. -/
def parse_subsection_notation (s : Str) : List Str :=
  (rfinditer NOTATION_COMPONENT_PATTERN s).filterMap (fun m => getCap 1 m.2.2)

/-- Model of `re.match(r'^[ivxlcdm]+$', component)` (case-sensitive): the
whole component is a non-empty run of lowercase Roman-numeral letters.
Because `$` also matches just before one trailing final newline, a single
trailing `'\n'` is tolerated. -/
def matchRomanLower (s : Str) : Bool :=
  let core := match s.getLast? with
              | some c => if c == '\n' then s.dropLast else s
              | none => s
  !core.isEmpty && core.all isRomanLowerC

/-- Model of `re.match(r'^[IVXLCDM]+$', component)` (case-sensitive). -/
def matchRomanUpper (s : Str) : Bool :=
  let core := match s.getLast? with
              | some c => if c == '\n' then s.dropLast else s
              | none => s
  !core.isEmpty && core.all isRomanUpperC

/-- `_get_marker_level`: nesting level inferred from the lexical form of a
marker component. -/
def get_marker_level (component : Str) : Nat :=
  if pyIsDigitS component then 2
  else if pyIsLowerS component then
    if component.length == 1 then 1
    else if matchRomanLower component then 4
    else 1
  else if pyIsUpperS component then
    if component.length == 1 then 3
    else if matchRomanUpper component then 5
    else 3
  else 1

/-- The fixed Roman-numeral ordering table used by `_is_next_in_sequence`. -/
def roman_order : List Str :=
  [str "i", str "ii", str "iii", str "iv", str "v", str "vi", str "vii",
   str "viii", str "ix", str "x", str "xi", str "xii", str "xiii", str "xiv",
   str "xv", str "xvi", str "xvii", str "xviii", str "xix", str "xx"]

/-- `_is_next_in_sequence`: whether `candidate` is the marker immediately
following `current` (digit successor, letter successor, or next Roman
numeral in the fixed table). -/
def is_next_in_sequence (current candidate : Str) : Bool :=
  if pyIsDigitS current && pyIsDigitS candidate then
    digitsToNat candidate == digitsToNat current + 1
  else if pyIsAlphaS current && pyIsAlphaS candidate then
    if current.length == 1 && candidate.length == 1 then
      ((candidate.headD ' ').toLower).toNat == ((current.headD ' ').toLower).toNat + 1
    else
      match posInList (lowerS current) roman_order,
            posInList (lowerS candidate) roman_order with
      | some ci, some di => di == ci + 1
      | _, _ => false
  else false

/-- `_find_marker`: exact find, then a case-insensitive fallback. -/
def find_marker (text marker : Str) : Option Nat :=
  match findSub marker text with
  | some pos => some pos
  | none => findSubCI marker text

/-- `_find_subsection_end`: the subsection starting at `start` ends at the
first later marker that is either the next value in sequence at the same
level or at a strictly higher (less nested) level; otherwise at the end of
the text. -/
def find_subsection_end (text : Str) (start : Nat) (component : Str) : Nat :=
  let level := get_marker_level component
  let search_start := start + (component.length + 2)
  let ms := rfinditer ANY_MARKER_PATTERN (text.drop search_start)
  match ms.find? (fun m =>
      let mc := (getCap 1 m.2.2).getD []
      let ml := get_marker_level mc
      (ml == level && is_next_in_sequence component mc) || ml < level) with
  | some m => search_start + m.1
  | none => text.length

/-- `_extract_nested`: walk the address components, narrowing the current
slice at each step. -/
def extract_nested : Str → List Str → Option Str
  | current_text, [] => some current_text
  | current_text, component :: remaining =>
    let marker : Str := '(' :: (component ++ [')'])
    match find_marker current_text marker with
    | none => none
    | some marker_pos =>
      let e := find_subsection_end current_text marker_pos component
      extract_nested (stripPy ((current_text.drop marker_pos).take (e - marker_pos)))
        remaining

/-- Result of subsection extraction (`ExtractionResult` in the source;
`subsection_ref` models the field that echoes the requested address
string). -/
structure ExtractionResult where
  success : Bool
  subsection_ref : Str
  extracted_text : Str
  full_text : Str
  error_message : Option Str := none
deriving DecidableEq, Repr

/-- `SubsectionExtractor.extract`: extract a specific subsection from the
full statute text. -/
def extract (full_text : Str) (subsection : Str) : ExtractionResult :=
  if full_text.isEmpty then
    { success := false, subsection_ref := subsection, extracted_text := [],
      full_text := full_text, error_message := some (str "No text provided") }
  else if subsection.isEmpty then
    { success := true, subsection_ref := [], extracted_text := full_text,
      full_text := full_text }
  else
    let components := parse_subsection_notation subsection
    if components.isEmpty then
      { success := false, subsection_ref := subsection, extracted_text := [],
        full_text := full_text,
        error_message :=
          some (str "Could not parse subsection notation: " ++ subsection) }
    else
      match extract_nested full_text components with
      | some extracted =>
        if extracted.isEmpty then
          { success := false, subsection_ref := subsection, extracted_text := [],
            full_text := full_text,
            error_message :=
              some (str "Could not find subsection " ++ subsection ++ str " in text") }
        else
          { success := true, subsection_ref := subsection,
            extracted_text := extracted, full_text := full_text }
      | none =>
        { success := false, subsection_ref := subsection, extracted_text := [],
          full_text := full_text,
          error_message :=
            some (str "Could not find subsection " ++ subsection ++ str " in text") }

end SubsectionExtractor

/-! ## Amendment Instruction Parser (`amendment_parser.py`) -/

namespace AmendmentParser

/-- `AmendmentType`: the closed set of amendment kinds the source defines. -/
inductive AmendmentType : Type where
  | strike_insert
  | insert_after
  | insert_before
  | read_as_follows
  | add_at_end
  | add_at_beginning
  | strike
  | redesignate
  | unknown
deriving DecidableEq, BEq, Repr

/-- `ParsedAmendment`: one parsed amendment instruction.  The confidence
score is stored scaled by 100 (the source's 0.9 becomes 90, 0.85 becomes
85, 0.5 becomes 50, 1.0 becomes 100) so that it stays kernel-computable;
no arithmetic is ever performed on it. -/
structure ParsedAmendment where
  amendment_type : AmendmentType
  text_to_strike : Option Str := none
  text_to_insert : Option Str := none
  position_marker : Option Str := none
  target_section : Option Str := none
  raw_instruction : Str := []
  confidence : Nat := 100
deriving DecidableEq, BEq, Repr

/-- Python truthiness of an optional string field (`bool(x)`). -/
def truthy : Option Str → Bool
  | none => false
  | some s => !s.isEmpty

/-- `ParsedAmendment.is_valid`: whether the amendment has enough
information to apply. -/
def ParsedAmendment.is_valid (a : ParsedAmendment) : Bool :=
  match a.amendment_type with
  | .strike_insert => truthy a.text_to_strike && truthy a.text_to_insert
  | .insert_after => truthy a.position_marker && truthy a.text_to_insert
  | .insert_before => truthy a.position_marker && truthy a.text_to_insert
  | .read_as_follows => truthy a.text_to_insert
  | .add_at_end => truthy a.text_to_insert
  | .add_at_beginning => truthy a.text_to_insert
  | .strike => truthy a.text_to_strike
  | _ => false

/-- `AmendmentParseResult`: outcome of `parse`. -/
structure AmendmentParseResult where
  amendments : List ParsedAmendment := []
  unparsed_text : Str := []
  success : Bool := false
  error_message : Option Str := none
deriving DecidableEq, Repr

/-- `QUOTE_NORMALIZATION`: smart-quote characters and their ASCII
replacements, in the source's dict insertion order. -/
def QUOTE_NORMALIZATION : List (Char × Char) :=
  [('“', '"'), ('”', '"'), ('‘', '\''), ('’', '\''),
   ('‚', '\''), ('‛', '\''), ('„', '"'), ('‟', '"'),
   ('′', '\''), ('″', '"')]

/-- `normalize_quotes`: successively replace every smart-quote variant
with its straight ASCII counterpart. -/
def normalize_quotes (text : Str) : Str :=
  QUOTE_NORMALIZATION.foldl (fun t p => replaceAllPy [p.1] [p.2] t) text

/-! ### Character classes used by the compiled patterns -/

/-- The quote class of `QUOTE_PATTERN`: `["“”‘’\']`. -/
def quoteCls (c : Char) : Bool :=
  c == '"' || c == '“' || c == '”' || c == '‘' ||
  c == '’' || c == '\''

/-- Class `[^"“”‘’\']`. -/
def notQuoteCls (c : Char) : Bool := !quoteCls c

/-- Class `["\']` (plain ASCII quotes). -/
def asciiQuote (c : Char) : Bool := c == '"' || c == '\''

/-- Class `[^"\']`. -/
def notAsciiQuote (c : Char) : Bool := !asciiQuote c

/-- Class `[:\s]`. -/
def colonWs (c : Char) : Bool := c == ':' || isWsPy c

/-- Class `[,\s]`. -/
def commaWs (c : Char) : Bool := c == ',' || isWsPy c

/-- Class `[—\-:\s]` of `NUMBERED_AMENDMENT_PATTERN`. -/
def dashColonWs (c : Char) : Bool :=
  c == '—' || c == '-' || c == ':' || isWsPy c

/-- Class `[A-Za-z0-9]`. -/
def alnumC (c : Char) : Bool := isAlphaC c || isDigitC c

/-- Class `[ivxlcdm0-9]` under `re.IGNORECASE`. -/
def romanDigitCI (c : Char) : Bool := SubsectionExtractor.isRomanCI c || isDigitC c

/-- Dot under `re.DOTALL`: any character. -/
def anyC (_ : Char) : Bool := true

/-- Dot without `re.DOTALL`: any character except a newline. -/
def notNlC (c : Char) : Bool := c != '\n'

/-! ### Compiled pattern fragments -/

/-- `QUOTE_PATTERN` with capture group `g`:
`["“”‘’\']([^"“”‘’\']+)["“”‘’\']`. -/
def QUOTE_PATTERN (g : Nat) : Rx :=
  rxSeqL [.sym quoteCls, .grp g (rxPlusG notQuoteCls), .sym quoteCls]

/-- `TEXT_AFTER_COLON` with capture group `g`:
`:\s*["“]?([^"”;.]+)["”]?`. -/
def TEXT_AFTER_COLON (g : Nat) : Rx :=
  rxSeqL [rxChar ':', rxWsStar,
    rxOpt (.sym (fun c => c == '"' || c == '“')),
    .grp g (rxPlusG (fun c => !(c == '"' || c == '”' || c == ';' || c == '.'))),
    rxOpt (.sym (fun c => c == '"' || c == '”'))]

/-- Fragment `(?:by\s+)?` (case-insensitive). -/
def byOpt : Rx := rxOpt (.seq (rxLitCI "by") rxWsPlus)

/-- Fragment `(?:the\s+following[:\s]+)?` (case-insensitive). -/
def theFollowingOpt : Rx :=
  rxOpt (rxSeqL [rxLitCI "the", rxWsPlus, rxLitCI "following", rxPlusG colonWs])

/-- Fragment `(?=\n\n|\Z)`. -/
def endLookahead : Rx := .look false (rxAltL [rxLit "\n\n", .eos])

/-! ### Strike-and-insert patterns (`STRIKE_INSERT_PATTERNS`) -/

/-- `(?:by\s+)?striking\s+Q1\s+and\s+inserting\s+Q2` (CI, DOTALL). -/
def SI0 : Rx :=
  rxSeqL [byOpt, rxLitCI "striking", rxWsPlus, QUOTE_PATTERN 1, rxWsPlus,
    rxLitCI "and", rxWsPlus, rxLitCI "inserting", rxWsPlus, QUOTE_PATTERN 2]

/-- `strike\s+Q1\s+and\s+insert(?:ing)?\s+Q2` (CI, DOTALL). -/
def SI1 : Rx :=
  rxSeqL [rxLitCI "strike", rxWsPlus, QUOTE_PATTERN 1, rxWsPlus, rxLitCI "and",
    rxWsPlus, rxLitCI "insert", rxOpt (rxLitCI "ing"), rxWsPlus, QUOTE_PATTERN 2]

/-- `striking\s+out\s+Q1\s+and\s+inserting\s+(?:in\s+lieu\s+thereof\s+)?Q2`
(CI, DOTALL). -/
def SI2 : Rx :=
  rxSeqL [rxLitCI "striking", rxWsPlus, rxLitCI "out", rxWsPlus, QUOTE_PATTERN 1,
    rxWsPlus, rxLitCI "and", rxWsPlus, rxLitCI "inserting", rxWsPlus,
    rxOpt (rxSeqL [rxLitCI "in", rxWsPlus, rxLitCI "lieu", rxWsPlus,
      rxLitCI "thereof", rxWsPlus]),
    QUOTE_PATTERN 2]

/-- `(?:by\s+)?striking\s+Q1\s+and\s+inserting\s+in\s+place\s+thereof\s+Q2`
(CI, DOTALL). -/
def SI3 : Rx :=
  rxSeqL [byOpt, rxLitCI "striking", rxWsPlus, QUOTE_PATTERN 1, rxWsPlus,
    rxLitCI "and", rxWsPlus, rxLitCI "inserting", rxWsPlus, rxLitCI "in",
    rxWsPlus, rxLitCI "place", rxWsPlus, rxLitCI "thereof", rxWsPlus,
    QUOTE_PATTERN 2]

/-- `(?:by\s+)?striking\s+Q1\s+and\s+all\s+that\s+follows\s+through\s+the\s+period\s+at\s+the\s+end\s+and\s+inserting\s+Q2`
(CI, DOTALL). -/
def SI4 : Rx :=
  rxSeqL [byOpt, rxLitCI "striking", rxWsPlus, QUOTE_PATTERN 1, rxWsPlus,
    rxLitCI "and", rxWsPlus, rxLitCI "all", rxWsPlus, rxLitCI "that", rxWsPlus,
    rxLitCI "follows", rxWsPlus, rxLitCI "through", rxWsPlus, rxLitCI "the",
    rxWsPlus, rxLitCI "period", rxWsPlus, rxLitCI "at", rxWsPlus, rxLitCI "the",
    rxWsPlus, rxLitCI "end", rxWsPlus, rxLitCI "and", rxWsPlus,
    rxLitCI "inserting", rxWsPlus, QUOTE_PATTERN 2]

/-- `(?:by\s+)?striking\s+paragraph\s*\((\d+)\)\s+and\s+inserting\s+(?:the\s+following[:\s]+)?(.+?)(?=\n\n|\Z|"\.\s*$)`
(CI, DOTALL). -/
def SI5 : Rx :=
  rxSeqL [byOpt, rxLitCI "striking", rxWsPlus, rxLitCI "paragraph", rxWsStar,
    rxChar '(', .grp 1 rxDigitsPlus, rxChar ')', rxWsPlus, rxLitCI "and",
    rxWsPlus, rxLitCI "inserting", rxWsPlus, theFollowingOpt,
    .grp 2 (rxPlusL anyC),
    .look false (rxAltL [rxLit "\n\n", .eos,
      rxSeqL [rxChar '"', rxChar '.', rxWsStar, .eol]])]

/-- The `STRIKE_INSERT_PATTERNS` list. -/
def STRIKE_INSERT_PATTERNS : List Rx := [SI0, SI1, SI2, SI3, SI4, SI5]

/-! ### Strike-through-end patterns (`STRIKE_THROUGH_END_PATTERNS`) -/

/-- Fragment `and\s+all\s+that\s+follows\s+through\s+(?:the\s+)?(?:period|semicolon)\s+at\s+the\s+end`. -/
def allThatFollows : Rx :=
  rxSeqL [rxLitCI "and", rxWsPlus, rxLitCI "all", rxWsPlus, rxLitCI "that",
    rxWsPlus, rxLitCI "follows", rxWsPlus, rxLitCI "through", rxWsPlus,
    rxOpt (.seq (rxLitCI "the") rxWsPlus),
    rxAltL [rxLitCI "period", rxLitCI "semicolon"],
    rxWsPlus, rxLitCI "at", rxWsPlus, rxLitCI "the", rxWsPlus, rxLitCI "end"]

/-- `(?:by\s+)?striking\s+Q1\s+…(period|semicolon) at the end and\s+inserting\s+Q2`
(CI, DOTALL): strike-through-end with replacement. -/
def STE0 : Rx :=
  rxSeqL [byOpt, rxLitCI "striking", rxWsPlus, QUOTE_PATTERN 1, rxWsPlus,
    allThatFollows, rxWsPlus, rxLitCI "and", rxWsPlus, rxLitCI "inserting",
    rxWsPlus, QUOTE_PATTERN 2]

/-- `(?:by\s+)?striking\s+Q1\s+…(period|semicolon) at the end(?!\s+and\s+insert)`
(CI, DOTALL): strike-through-end without replacement. -/
def STE1 : Rx :=
  rxSeqL [byOpt, rxLitCI "striking", rxWsPlus, QUOTE_PATTERN 1, rxWsPlus,
    allThatFollows,
    .look true (rxSeqL [rxWsPlus, rxLitCI "and", rxWsPlus, rxLitCI "insert"])]

/-- The `STRIKE_THROUGH_END_PATTERNS` list. -/
def STRIKE_THROUGH_END_PATTERNS : List Rx := [STE0, STE1]

/-! ### Whole-element strike patterns (`STRIKE_SUBPARAGRAPH_PATTERNS`) -/

/-- `(?:by\s+)?striking\s+subparagraphs?\s*\(([A-Z])\)\s+and\s+\(([A-Z])\)` (CI). -/
def SSP0 : Rx :=
  rxSeqL [byOpt, rxLitCI "striking", rxWsPlus, rxLitCI "subparagraph",
    rxOpt (rxCharCI 's'), rxWsStar, rxChar '(', .grp 1 (.sym isAlphaC),
    rxChar ')', rxWsPlus, rxLitCI "and", rxWsPlus, rxChar '(',
    .grp 2 (.sym isAlphaC), rxChar ')']

/-- `(?:by\s+)?striking\s+subparagraph\s*\(([A-Z])\)(?!\s+and\s+insert)` (CI). -/
def SSP1 : Rx :=
  rxSeqL [byOpt, rxLitCI "striking", rxWsPlus, rxLitCI "subparagraph", rxWsStar,
    rxChar '(', .grp 1 (.sym isAlphaC), rxChar ')',
    .look true (rxSeqL [rxWsPlus, rxLitCI "and", rxWsPlus, rxLitCI "insert"])]

/-- `(?:by\s+)?striking\s+paragraph\s*\((\d+)\)(?!\s+and\s+insert)` (CI). -/
def SSP2 : Rx :=
  rxSeqL [byOpt, rxLitCI "striking", rxWsPlus, rxLitCI "paragraph", rxWsStar,
    rxChar '(', .grp 1 rxDigitsPlus, rxChar ')',
    .look true (rxSeqL [rxWsPlus, rxLitCI "and", rxWsPlus, rxLitCI "insert"])]

/-- `(?:by\s+)?striking\s+subsection\s*\(([a-z])\)` (CI). -/
def SSP3 : Rx :=
  rxSeqL [byOpt, rxLitCI "striking", rxWsPlus, rxLitCI "subsection", rxWsStar,
    rxChar '(', .grp 1 (.sym isAlphaC), rxChar ')']

/-- The `STRIKE_SUBPARAGRAPH_PATTERNS` list. -/
def STRIKE_SUBPARAGRAPH_PATTERNS : List Rx := [SSP0, SSP1, SSP2, SSP3]

/-! ### Insert patterns -/

/-- `(?:by\s+)?inserting\s+(?:immediately\s+)?after\s+Q1\s+(?:the\s+following[:\s]+)?Q2`
(CI, DOTALL). -/
def IA0 : Rx :=
  rxSeqL [byOpt, rxLitCI "inserting", rxWsPlus,
    rxOpt (.seq (rxLitCI "immediately") rxWsPlus), rxLitCI "after", rxWsPlus,
    QUOTE_PATTERN 1, rxWsPlus, theFollowingOpt, QUOTE_PATTERN 2]

/-- `inserting\s+after\s+Q1:\s*…` (CI, DOTALL). -/
def IA1 : Rx :=
  rxSeqL [rxLitCI "inserting", rxWsPlus, rxLitCI "after", rxWsPlus,
    QUOTE_PATTERN 1, TEXT_AFTER_COLON 2]

/-- The `INSERT_AFTER_PATTERNS` list. -/
def INSERT_AFTER_PATTERNS : List Rx := [IA0, IA1]

/-- `(?:by\s+)?inserting\s+(?:immediately\s+)?before\s+Q1\s+(?:the\s+following[:\s]+)?Q2`
(CI, DOTALL). -/
def IB0 : Rx :=
  rxSeqL [byOpt, rxLitCI "inserting", rxWsPlus,
    rxOpt (.seq (rxLitCI "immediately") rxWsPlus), rxLitCI "before", rxWsPlus,
    QUOTE_PATTERN 1, rxWsPlus, theFollowingOpt, QUOTE_PATTERN 2]

/-- The `INSERT_BEFORE_PATTERNS` list. -/
def INSERT_BEFORE_PATTERNS : List Rx := [IB0]

/-! ### Read-as-follows and add patterns -/

/-- `(?:is\s+)?amended\s+to\s+read\s+as\s+follows[:\s]+(.+?)(?=\n\n|\Z)`
(CI, DOTALL). -/
def RAF0 : Rx :=
  rxSeqL [rxOpt (.seq (rxLitCI "is") rxWsPlus), rxLitCI "amended", rxWsPlus,
    rxLitCI "to", rxWsPlus, rxLitCI "read", rxWsPlus, rxLitCI "as", rxWsPlus,
    rxLitCI "follows", rxPlusG colonWs, .grp 1 (rxPlusL anyC), endLookahead]

/-- `shall\s+read\s+as\s+follows[:\s]+(.+?)(?=\n\n|\Z)` (CI, DOTALL). -/
def RAF1 : Rx :=
  rxSeqL [rxLitCI "shall", rxWsPlus, rxLitCI "read", rxWsPlus, rxLitCI "as",
    rxWsPlus, rxLitCI "follows", rxPlusG colonWs, .grp 1 (rxPlusL anyC),
    endLookahead]

/-- The `READ_AS_FOLLOWS_PATTERNS` list. -/
def READ_AS_FOLLOWS_PATTERNS : List Rx := [RAF0, RAF1]

/-- `(?:by\s+)?adding\s+at\s+the\s+end\s+(?:thereof\s+)?(?:the\s+following[:\s]+)?(.+?)(?=\n\n|\Z)`
(CI, DOTALL). -/
def AAE0 : Rx :=
  rxSeqL [byOpt, rxLitCI "adding", rxWsPlus, rxLitCI "at", rxWsPlus,
    rxLitCI "the", rxWsPlus, rxLitCI "end", rxWsPlus,
    rxOpt (.seq (rxLitCI "thereof") rxWsPlus), theFollowingOpt,
    .grp 1 (rxPlusL anyC), endLookahead]

/-- `(?:by\s+)?adding\s+at\s+the\s+end:\s*…` (CI, DOTALL). -/
def AAE1 : Rx :=
  rxSeqL [byOpt, rxLitCI "adding", rxWsPlus, rxLitCI "at", rxWsPlus,
    rxLitCI "the", rxWsPlus, rxLitCI "end", TEXT_AFTER_COLON 1]

/-- The `ADD_AT_END_PATTERNS` list. -/
def ADD_AT_END_PATTERNS : List Rx := [AAE0, AAE1]

/-- `(?:by\s+)?(?:inserting|adding)\s+(?:at\s+)?the\s+beginning\s+(?:thereof\s+)?(?:the\s+following[:\s]+)?(.+?)(?=\n\n|\Z)`
(CI, DOTALL). -/
def AAB0 : Rx :=
  rxSeqL [byOpt, rxAltL [rxLitCI "inserting", rxLitCI "adding"], rxWsPlus,
    rxOpt (.seq (rxLitCI "at") rxWsPlus), rxLitCI "the", rxWsPlus,
    rxLitCI "beginning", rxWsPlus, rxOpt (.seq (rxLitCI "thereof") rxWsPlus),
    theFollowingOpt, .grp 1 (rxPlusL anyC), endLookahead]

/-- The `ADD_AT_BEGINNING_PATTERNS` list. -/
def ADD_AT_BEGINNING_PATTERNS : List Rx := [AAB0]

/-! ### Strike-only patterns (`STRIKE_PATTERNS`) -/

/-- `(?:by\s+)?striking\s+Q1(?!\s+and\s+insert)(?!\s+each\s+place)` (CI). -/
def SO0 : Rx :=
  rxSeqL [byOpt, rxLitCI "striking", rxWsPlus, QUOTE_PATTERN 1,
    .look true (rxSeqL [rxWsPlus, rxLitCI "and", rxWsPlus, rxLitCI "insert"]),
    .look true (rxSeqL [rxWsPlus, rxLitCI "each", rxWsPlus, rxLitCI "place"])]

/-- `(?:by\s+)?deleting\s+Q1` (CI). -/
def SO1 : Rx := rxSeqL [byOpt, rxLitCI "deleting", rxWsPlus, QUOTE_PATTERN 1]

/-- `strike\s+out\s+Q1` (CI). -/
def SO2 : Rx :=
  rxSeqL [rxLitCI "strike", rxWsPlus, rxLitCI "out", rxWsPlus, QUOTE_PATTERN 1]

/-- `(?:by\s+)?striking\s+Q1\s+at\s+the\s+end(?!\s+and)` (CI). -/
def SO3 : Rx :=
  rxSeqL [byOpt, rxLitCI "striking", rxWsPlus, QUOTE_PATTERN 1, rxWsPlus,
    rxLitCI "at", rxWsPlus, rxLitCI "the", rxWsPlus, rxLitCI "end",
    .look true (.seq rxWsPlus (rxLitCI "and"))]

/-- The `STRIKE_PATTERNS` list. -/
def STRIKE_PATTERNS : List Rx := [SO0, SO1, SO2, SO3]

/-! ### "Each place it appears" patterns (`STRIKE_EACH_PLACE_PATTERNS`) -/

/-- Fragment `each\s+place\s+(?:it|the\s+term)\s+appears`. -/
def eachPlaceAppears : Rx :=
  rxSeqL [rxLitCI "each", rxWsPlus, rxLitCI "place", rxWsPlus,
    rxAltL [rxLitCI "it", rxSeqL [rxLitCI "the", rxWsPlus, rxLitCI "term"]],
    rxWsPlus, rxLitCI "appears"]

/-- `(?:by\s+)?striking\s+Q1\s+each\s+place\s+(?:it|the\s+term)\s+appears` (CI). -/
def EP0 : Rx :=
  rxSeqL [byOpt, rxLitCI "striking", rxWsPlus, QUOTE_PATTERN 1, rxWsPlus,
    eachPlaceAppears]

/-- `(?:by\s+)?striking\s+Q1\s+each\s+place\s+…\s+appears\s+and\s+inserting\s+Q2` (CI). -/
def EP1 : Rx :=
  rxSeqL [byOpt, rxLitCI "striking", rxWsPlus, QUOTE_PATTERN 1, rxWsPlus,
    eachPlaceAppears, rxWsPlus, rxLitCI "and", rxWsPlus, rxLitCI "inserting",
    rxWsPlus, QUOTE_PATTERN 2]

/-- The `STRIKE_EACH_PLACE_PATTERNS` list. -/
def STRIKE_EACH_PLACE_PATTERNS : List Rx := [EP0, EP1]

/-! ### Strike-at-end-and-insert patterns (`STRIKE_END_INSERT_PATTERNS`) -/

/-- `(?:by\s+)?striking\s+the\s+(\w+)\s+at\s+the\s+end\s+and\s+inserting\s+Q2` (CI). -/
def SEI0 : Rx :=
  rxSeqL [byOpt, rxLitCI "striking", rxWsPlus, rxLitCI "the", rxWsPlus,
    .grp 1 (rxPlusG isWordC), rxWsPlus, rxLitCI "at", rxWsPlus, rxLitCI "the",
    rxWsPlus, rxLitCI "end", rxWsPlus, rxLitCI "and", rxWsPlus,
    rxLitCI "inserting", rxWsPlus, QUOTE_PATTERN 2]

/-- `(?:by\s+)?striking\s+Q1\s+at\s+the\s+end\s+and\s+inserting\s+Q2` (CI). -/
def SEI1 : Rx :=
  rxSeqL [byOpt, rxLitCI "striking", rxWsPlus, QUOTE_PATTERN 1, rxWsPlus,
    rxLitCI "at", rxWsPlus, rxLitCI "the", rxWsPlus, rxLitCI "end", rxWsPlus,
    rxLitCI "and", rxWsPlus, rxLitCI "inserting", rxWsPlus, QUOTE_PATTERN 2]

/-- The `STRIKE_END_INSERT_PATTERNS` list. -/
def STRIKE_END_INSERT_PATTERNS : List Rx := [SEI0, SEI1]

/-! ### Subparagraph-targeted patterns (`SUBPARAGRAPH_PATTERNS`) -/

/-- Fragment `(?:on|in)\s+(?:subparagraph|paragraph|clause)\s*`. -/
def onInElement : Rx :=
  rxSeqL [rxAltL [rxLitCI "on", rxLitCI "in"], rxWsPlus,
    rxAltL [rxLitCI "subparagraph", rxLitCI "paragraph", rxLitCI "clause"],
    rxWsStar]

/-- `(?:on|in)\s+(?:subparagraph|paragraph|clause)\s*\(([A-Za-z0-9]+)\)[,\s]+(?:by\s+)?striking\s+Q2\s+at\s+the\s+end`
(CI). -/
def SUB0 : Rx :=
  rxSeqL [onInElement, rxChar '(', .grp 1 (rxPlusG alnumC), rxChar ')',
    rxPlusG commaWs, byOpt, rxLitCI "striking", rxWsPlus, QUOTE_PATTERN 2,
    rxWsPlus, rxLitCI "at", rxWsPlus, rxLitCI "the", rxWsPlus, rxLitCI "end"]

/-- `…\(([A-Za-z0-9]+)\)(?:\s*\(([ivxlcdm0-9]+)\))?[,\s]+(?:by\s+)?striking\s+(?:the\s+)?(\w+)\s+at\s+the\s+end\s+and\s+inserting\s+Q4`
(CI): strike a named token, quoted replacement. -/
def SUB1 : Rx :=
  rxSeqL [onInElement, rxChar '(', .grp 1 (rxPlusG alnumC), rxChar ')',
    rxOpt (rxSeqL [rxWsStar, rxChar '(', .grp 2 (rxPlusG romanDigitCI), rxChar ')']),
    rxPlusG commaWs, byOpt, rxLitCI "striking", rxWsPlus,
    rxOpt (.seq (rxLitCI "the") rxWsPlus), .grp 3 (rxPlusG isWordC), rxWsPlus,
    rxLitCI "at", rxWsPlus, rxLitCI "the", rxWsPlus, rxLitCI "end", rxWsPlus,
    rxLitCI "and", rxWsPlus, rxLitCI "inserting", rxWsPlus, QUOTE_PATTERN 4]

/-- `…striking\s+(?:the\s+)?(\w+)\s+at\s+the\s+end\s+and\s+inserting\s+(?:a\s+)?(\w+)`
(CI): strike a named token, unquoted replacement. -/
def SUB2 : Rx :=
  rxSeqL [onInElement, rxChar '(', .grp 1 (rxPlusG alnumC), rxChar ')',
    rxOpt (rxSeqL [rxWsStar, rxChar '(', .grp 2 (rxPlusG romanDigitCI), rxChar ')']),
    rxPlusG commaWs, byOpt, rxLitCI "striking", rxWsPlus,
    rxOpt (.seq (rxLitCI "the") rxWsPlus), .grp 3 (rxPlusG isWordC), rxWsPlus,
    rxLitCI "at", rxWsPlus, rxLitCI "the", rxWsPlus, rxLitCI "end", rxWsPlus,
    rxLitCI "and", rxWsPlus, rxLitCI "inserting", rxWsPlus,
    rxOpt (.seq (rxLitCI "a") rxWsPlus), .grp 4 (rxPlusG isWordC)]

/-- `(?:by\s+)?striking\s+(?:subparagraph|paragraph|clause)\s*\(([A-Za-z0-9]+)\)\s+and\s+inserting\s+(?:the\s+following[:\s]+)?(.+?)(?=\n\n|\Z|"\.|"\s*$)`
(CI, DOTALL). -/
def SUB3 : Rx :=
  rxSeqL [byOpt, rxLitCI "striking", rxWsPlus,
    rxAltL [rxLitCI "subparagraph", rxLitCI "paragraph", rxLitCI "clause"],
    rxWsStar, rxChar '(', .grp 1 (rxPlusG alnumC), rxChar ')', rxWsPlus,
    rxLitCI "and", rxWsPlus, rxLitCI "inserting", rxWsPlus, theFollowingOpt,
    .grp 2 (rxPlusL anyC),
    .look false (rxAltL [rxLit "\n\n", .eos, rxSeqL [rxChar '"', rxChar '.'],
      rxSeqL [rxChar '"', rxWsStar, .eol]])]

/-- The `SUBPARAGRAPH_PATTERNS` list, paired with each pattern's number of
capture groups (the source branches on `len(match.groups())`). -/
def SUBPARAGRAPH_PATTERNS : List (Rx × Nat) :=
  [(SUB0, 2), (SUB1, 4), (SUB2, 4), (SUB3, 2)]

/-! ### Redesignate and section-reference patterns -/

/-- `(?:by\s+)?redesignating\s+(\w+\s*\([^)]+\))\s+as\s+(\w+\s*\([^)]+\))` (CI). -/
def RED0 : Rx :=
  rxSeqL [byOpt, rxLitCI "redesignating", rxWsPlus,
    .grp 1 (rxSeqL [rxPlusG isWordC, rxWsStar, rxChar '(',
      rxPlusG (fun c => c != ')'), rxChar ')']),
    rxWsPlus, rxLitCI "as", rxWsPlus,
    .grp 2 (rxSeqL [rxPlusG isWordC, rxWsStar, rxChar '(',
      rxPlusG (fun c => c != ')'), rxChar ')'])]

/-- The `REDESIGNATE_PATTERNS` list. -/
def REDESIGNATE_PATTERNS : List Rx := [RED0]

/-- `SECTION_REF_PATTERN`:
`(?:section|subsection|paragraph|subparagraph)\s*\(?\d+\)?(?:\s*\([a-zA-Z0-9]+\))*` (CI). -/
def SECTION_REF_PATTERN : Rx :=
  rxSeqL [rxAltL [rxLitCI "section", rxLitCI "subsection", rxLitCI "paragraph",
      rxLitCI "subparagraph"],
    rxWsStar, rxOpt (rxChar '('), rxDigitsPlus, rxOpt (rxChar ')'),
    .star true (rxSeqL [rxWsStar, rxChar '(', rxPlusG alnumC, rxChar ')'])]

/-! ### Definitional and amendment-indicator patterns -/

/-- `\(as\s+defined\s+in\s+(?:section|paragraph)` (CI). -/
def DEF0 : Rx :=
  rxSeqL [rxChar '(', rxLitCI "as", rxWsPlus, rxLitCI "defined", rxWsPlus,
    rxLitCI "in", rxWsPlus, rxAltL [rxLitCI "section", rxLitCI "paragraph"]]

/-- `has\s+the\s+meaning\s+given` (CI). -/
def DEF1 : Rx :=
  rxSeqL [rxLitCI "has", rxWsPlus, rxLitCI "the", rxWsPlus, rxLitCI "meaning",
    rxWsPlus, rxLitCI "given"]

/-- `the\s+term\s+["\'].+?["\']\s+means` (CI, dot excludes newline). -/
def DEF2 : Rx :=
  rxSeqL [rxLitCI "the", rxWsPlus, rxLitCI "term", rxWsPlus, .sym asciiQuote,
    rxPlusL notNlC, .sym asciiQuote, rxWsPlus, rxLitCI "means"]

/-- `for\s+purposes\s+of\s+this` (CI). -/
def DEF3 : Rx :=
  rxSeqL [rxLitCI "for", rxWsPlus, rxLitCI "purposes", rxWsPlus, rxLitCI "of",
    rxWsPlus, rxLitCI "this"]

/-- `under\s+(?:section|paragraph|subparagraph)` (CI). -/
def DEF4 : Rx :=
  rxSeqL [rxLitCI "under", rxWsPlus,
    rxAltL [rxLitCI "section", rxLitCI "paragraph", rxLitCI "subparagraph"]]

/-- The `DEFINITIONAL_PATTERNS` list. -/
def DEFINITIONAL_PATTERNS : List Rx := [DEF0, DEF1, DEF2, DEF3, DEF4]

/-- The `AMENDMENT_INDICATOR_PATTERNS` list (each CI):
`is\s+amended`, `are\s+amended`, `is\s+hereby\s+amended`,
`shall\s+be\s+amended`, `is\s+further\s+amended`, `are\s+further\s+amended`,
`by\s+striking`, `by\s+inserting`, `by\s+adding`, `by\s+redesignating`. -/
def AMENDMENT_INDICATOR_PATTERNS : List Rx :=
  [rxSeqL [rxLitCI "is", rxWsPlus, rxLitCI "amended"],
   rxSeqL [rxLitCI "are", rxWsPlus, rxLitCI "amended"],
   rxSeqL [rxLitCI "is", rxWsPlus, rxLitCI "hereby", rxWsPlus, rxLitCI "amended"],
   rxSeqL [rxLitCI "shall", rxWsPlus, rxLitCI "be", rxWsPlus, rxLitCI "amended"],
   rxSeqL [rxLitCI "is", rxWsPlus, rxLitCI "further", rxWsPlus, rxLitCI "amended"],
   rxSeqL [rxLitCI "are", rxWsPlus, rxLitCI "further", rxWsPlus, rxLitCI "amended"],
   rxSeqL [rxLitCI "by", rxWsPlus, rxLitCI "striking"],
   rxSeqL [rxLitCI "by", rxWsPlus, rxLitCI "inserting"],
   rxSeqL [rxLitCI "by", rxWsPlus, rxLitCI "adding"],
   rxSeqL [rxLitCI "by", rxWsPlus, rxLitCI "redesignating"]]

/-- `NUMBERED_AMENDMENT_PATTERN`:
`is\s+(?:further\s+)?amended[—\-:\s]+(?:\n\s*)?(\(\d+\)[^(]+(?:\(\d+\)[^(]+)*)`
(CI, DOTALL). -/
def NUMBERED_AMENDMENT_PATTERN : Rx :=
  rxSeqL [rxLitCI "is", rxWsPlus, rxOpt (.seq (rxLitCI "further") rxWsPlus),
    rxLitCI "amended", rxPlusG dashColonWs, rxOpt (.seq (rxChar '\n') rxWsStar),
    .grp 1 (rxSeqL [rxChar '(', rxDigitsPlus, rxChar ')',
      rxPlusG (fun c => c != '('),
      .star true (rxSeqL [rxChar '(', rxDigitsPlus, rxChar ')',
        rxPlusG (fun c => c != '(')])])]

/-- The `re.split` pattern `\(\d+\)\s*` used on numbered amendment blocks. -/
def NUMBERED_SPLIT_PATTERN : Rx :=
  rxSeqL [rxChar '(', rxDigitsPlus, rxChar ')', rxWsStar]

/-! ### Recognizer stages -/

/-- Shorthand: `match.group(g)` of a finditer item, with `""` for a group
the pattern guarantees to have participated. -/
def grpOf (g : Nat) (m : Nat × Str × Caps) : Str := (getCap g m.2.2).getD []

/-- Shorthand: `match.group(g)` of a finditer item as an `Option`. -/
def grpOpt (g : Nat) (m : Nat × Str × Caps) : Option Str := getCap g m.2.2

/-- `_parse_strike_insert`: every `STRIKE_INSERT_PATTERNS` match becomes a
`STRIKE_INSERT` amendment with both groups stripped, confidence 0.9. -/
def parse_strike_insert (text : Str) : List ParsedAmendment :=
  STRIKE_INSERT_PATTERNS.flatMap (fun pat =>
    (rfinditer pat text).map (fun m =>
      { amendment_type := .strike_insert,
        text_to_strike := some (stripPy (grpOf 1 m)),
        text_to_insert := some (stripPy (grpOf 2 m)),
        raw_instruction := m.2.1,
        confidence := 90 }))

/-- The token-to-punctuation table `{"period": ".", "comma": ",",
"semicolon": ";"}` with a fallback to the word itself. -/
def punctWord3 (w : Str) : Str :=
  if lowerS w == str "period" then str "."
  else if lowerS w == str "comma" then str ","
  else if lowerS w == str "semicolon" then str ";"
  else w

/-- The four-entry token-to-punctuation table of
`_parse_subparagraph_amendments` (adds `"colon"`). -/
def punctWord4 (w : Str) : Str :=
  if lowerS w == str "period" then str "."
  else if lowerS w == str "comma" then str ","
  else if lowerS w == str "semicolon" then str ";"
  else if lowerS w == str "colon" then str ":"
  else w

/-- `_parse_strike_end_insert`: strike a spelled-out or quoted token at the
end and insert replacement text. -/
def parse_strike_end_insert (text : Str) : List ParsedAmendment :=
  STRIKE_END_INSERT_PATTERNS.flatMap (fun pat =>
    (rfinditer pat text).map (fun m =>
      { amendment_type := .strike_insert,
        text_to_strike := some (punctWord3 (grpOf 1 m)),
        text_to_insert := some (stripPy (grpOf 2 m)),
        raw_instruction := m.2.1,
        confidence := 90 }))

/-- `_parse_strike_through_end`: matches of the two
`STRIKE_THROUGH_END_PATTERNS`; the two-group pattern yields a
`STRIKE_INSERT`, the one-group pattern a `STRIKE`, both tagging the strike
text with `" [and all that follows through end]"`. -/
def parse_strike_through_end (text : Str) : List ParsedAmendment :=
  (rfinditer STE0 text).map (fun m =>
    { amendment_type := .strike_insert,
      text_to_strike :=
        some (stripPy (grpOf 1 m) ++ str " [and all that follows through end]"),
      text_to_insert := some (stripPy (grpOf 2 m)),
      raw_instruction := m.2.1,
      confidence := 85 })
  ++ (rfinditer STE1 text).map (fun m =>
    { amendment_type := .strike,
      text_to_strike :=
        some (stripPy (grpOf 1 m) ++ str " [and all that follows through end]"),
      raw_instruction := m.2.1,
      confidence := 85 })

/-- `_parse_strike_subparagraphs`: strike whole structural elements.  The
two-group pattern names a pair of subparagraphs; a one-group match is
classified by which element word occurs in the (lowercased) matched text. -/
def parse_strike_subparagraphs (text : Str) : List ParsedAmendment :=
  (rfinditer SSP0 text).map (fun m =>
    { amendment_type := .strike,
      text_to_strike :=
        some (str "subparagraphs (" ++ grpOf 1 m ++ str ") and (" ++ grpOf 2 m ++ str ")"),
      raw_instruction := m.2.1,
      confidence := 90 })
  ++ [SSP1, SSP2, SSP3].flatMap (fun pat =>
    (rfinditer pat text).map (fun m =>
      let raw := lowerS m.2.1
      let target :=
        if containsSub (str "subsection") raw then
          str "subsection (" ++ grpOf 1 m ++ str ")"
        else if containsSub (str "paragraph") raw && !containsSub (str "sub") raw then
          str "paragraph (" ++ grpOf 1 m ++ str ")"
        else
          str "subparagraph (" ++ grpOf 1 m ++ str ")"
      { amendment_type := .strike,
        text_to_strike := some target,
        raw_instruction := m.2.1,
        confidence := 90 }))

/-- Per-match body of `_parse_subparagraph_amendments`, branching on the
pattern's group count exactly as the source branches on `len(groups)`. -/
def subparagraphMatchBody (ngroups : Nat) (m : Nat × Str × Caps) :
    List ParsedAmendment :=
  let raw_instr := lowerS m.2.1
  if ngroups == 2 then
    let subpara := grpOf 1 m
    if containsSub (str "and inserting") raw_instr then
      [{ amendment_type := .strike_insert,
         text_to_strike := some (str "subparagraph (" ++ subpara ++ str ")"),
         text_to_insert :=
           some (stripChars (str "\"'“”‘’") (stripPy (grpOf 2 m))),
         target_section := some (str "subparagraph (" ++ subpara ++ str ")"),
         raw_instruction := m.2.1,
         confidence := 90 }]
    else
      [{ amendment_type := .strike,
         text_to_strike := some (grpOf 2 m),
         target_section := some (str "subparagraph (" ++ subpara ++ str ")"),
         raw_instruction := m.2.1,
         confidence := 90 }]
  else if ngroups ≥ 4 then
    let subpara := grpOf 1 m
    let clause := (grpOpt 2 m).getD []
    let strike_text := punctWord4 (grpOf 3 m)
    let insert_text := punctWord4 (grpOf 4 m)
    let target := str "subparagraph (" ++ subpara ++ str ")"
      ++ (if clause.isEmpty then [] else str "(" ++ clause ++ str ")")
    [{ amendment_type := .strike_insert,
       text_to_strike := some strike_text,
       text_to_insert := some (stripPy insert_text),
       target_section := some target,
       raw_instruction := m.2.1,
       confidence := 90 }]
  else []

/-- `_parse_subparagraph_amendments`. -/
def parse_subparagraph_amendments (text : Str) : List ParsedAmendment :=
  SUBPARAGRAPH_PATTERNS.flatMap (fun pn =>
    (rfinditer pn.1 text).flatMap (subparagraphMatchBody pn.2))

/-- `_parse_insert_after`. -/
def parse_insert_after (text : Str) : List ParsedAmendment :=
  INSERT_AFTER_PATTERNS.flatMap (fun pat =>
    (rfinditer pat text).map (fun m =>
      { amendment_type := .insert_after,
        position_marker := some (stripPy (grpOf 1 m)),
        text_to_insert := some (stripPy (grpOf 2 m)),
        raw_instruction := m.2.1,
        confidence := 90 }))

/-- `_parse_insert_before`. -/
def parse_insert_before (text : Str) : List ParsedAmendment :=
  INSERT_BEFORE_PATTERNS.flatMap (fun pat =>
    (rfinditer pat text).map (fun m =>
      { amendment_type := .insert_before,
        position_marker := some (stripPy (grpOf 1 m)),
        text_to_insert := some (stripPy (grpOf 2 m)),
        raw_instruction := m.2.1,
        confidence := 90 }))

/-- `_parse_read_as_follows` (confidence 0.85). -/
def parse_read_as_follows (text : Str) : List ParsedAmendment :=
  READ_AS_FOLLOWS_PATTERNS.flatMap (fun pat =>
    (rfinditer pat text).map (fun m =>
      { amendment_type := .read_as_follows,
        text_to_insert := some (stripPy (grpOf 1 m)),
        raw_instruction := m.2.1,
        confidence := 85 }))

/-- `_parse_add_at_end`. -/
def parse_add_at_end (text : Str) : List ParsedAmendment :=
  ADD_AT_END_PATTERNS.flatMap (fun pat =>
    (rfinditer pat text).map (fun m =>
      { amendment_type := .add_at_end,
        text_to_insert := some (stripPy (grpOf 1 m)),
        raw_instruction := m.2.1,
        confidence := 90 }))

/-- `_parse_add_at_beginning`. -/
def parse_add_at_beginning (text : Str) : List ParsedAmendment :=
  ADD_AT_BEGINNING_PATTERNS.flatMap (fun pat =>
    (rfinditer pat text).map (fun m =>
      { amendment_type := .add_at_beginning,
        text_to_insert := some (stripPy (grpOf 1 m)),
        raw_instruction := m.2.1,
        confidence := 90 }))

/-- `_parse_strike_only`. -/
def parse_strike_only (text : Str) : List ParsedAmendment :=
  STRIKE_PATTERNS.flatMap (fun pat =>
    (rfinditer pat text).map (fun m =>
      { amendment_type := .strike,
        text_to_strike := some (stripPy (grpOf 1 m)),
        raw_instruction := m.2.1,
        confidence := 90 }))

/-- `_parse_strike_each_place`: the one-group pattern yields a `STRIKE`,
the two-group pattern a `STRIKE_INSERT`, both tagging the strike text with
`" [each place it appears]"`. -/
def parse_strike_each_place (text : Str) : List ParsedAmendment :=
  (rfinditer EP0 text).map (fun m =>
    { amendment_type := .strike,
      text_to_strike :=
        some (stripPy (grpOf 1 m) ++ str " [each place it appears]"),
      raw_instruction := m.2.1,
      confidence := 90 })
  ++ (rfinditer EP1 text).map (fun m =>
    { amendment_type := .strike_insert,
      text_to_strike :=
        some (stripPy (grpOf 1 m) ++ str " [each place it appears]"),
      text_to_insert := some (stripPy (grpOf 2 m)),
      raw_instruction := m.2.1,
      confidence := 90 })

/-- `_parse_redesignate` (confidence 0.85). -/
def parse_redesignate (text : Str) : List ParsedAmendment :=
  REDESIGNATE_PATTERNS.flatMap (fun pat =>
    (rfinditer pat text).map (fun m =>
      { amendment_type := .redesignate,
        text_to_strike := some (stripPy (grpOf 1 m)),
        text_to_insert := some (stripPy (grpOf 2 m)),
        raw_instruction := m.2.1,
        confidence := 85 }))

/-! ### Numbered amendment lists -/

/-- Item pattern of `_parse_single_amendment_item`:
`(?:on|in)\s+(?:subparagraph|paragraph|clause)\s*\(([A-Za-z0-9]+)\)[,\s]+(?:by\s+)?striking\s+["\']([^"\']+)["\'](?:\s+at\s+the\s+end)?`
(CI). -/
def ITEM_STRIKE_AT_END : Rx :=
  rxSeqL [onInElement, rxChar '(', .grp 1 (rxPlusG alnumC), rxChar ')',
    rxPlusG commaWs, byOpt, rxLitCI "striking", rxWsPlus, .sym asciiQuote,
    .grp 2 (rxPlusG notAsciiQuote), .sym asciiQuote,
    rxOpt (rxSeqL [rxWsPlus, rxLitCI "at", rxWsPlus, rxLitCI "the", rxWsPlus,
      rxLitCI "end"])]

/-- Item pattern:
`(?:on|in)\s+…\(([A-Za-z0-9]+)\)(?:\s*\(([ivxlcdm0-9]+)\))?[,\s]+(?:by\s+)?striking\s+(?:the\s+)?(\w+)\s+at\s+the\s+end\s+and\s+inserting\s+["\']([^"\']+)["\']`
(CI). -/
def ITEM_STRIKE_WORD_INSERT : Rx :=
  rxSeqL [onInElement, rxChar '(', .grp 1 (rxPlusG alnumC), rxChar ')',
    rxOpt (rxSeqL [rxWsStar, rxChar '(', .grp 2 (rxPlusG romanDigitCI), rxChar ')']),
    rxPlusG commaWs, byOpt, rxLitCI "striking", rxWsPlus,
    rxOpt (.seq (rxLitCI "the") rxWsPlus), .grp 3 (rxPlusG isWordC), rxWsPlus,
    rxLitCI "at", rxWsPlus, rxLitCI "the", rxWsPlus, rxLitCI "end", rxWsPlus,
    rxLitCI "and", rxWsPlus, rxLitCI "inserting", rxWsPlus, .sym asciiQuote,
    .grp 4 (rxPlusG notAsciiQuote), .sym asciiQuote]

/-- Item pattern:
`(?:by\s+)?adding\s+at\s+the\s+end\s+(?:the\s+following[:\s]+)?["\']?(.+?)["\']?\s*[\.;]?\s*$`
(CI, DOTALL). -/
def ITEM_ADD_AT_END : Rx :=
  rxSeqL [byOpt, rxLitCI "adding", rxWsPlus, rxLitCI "at", rxWsPlus,
    rxLitCI "the", rxWsPlus, rxLitCI "end", rxWsPlus, theFollowingOpt,
    rxOpt (.sym asciiQuote), .grp 1 (rxPlusL anyC), rxOpt (.sym asciiQuote),
    rxWsStar, rxOpt (.sym (fun c => c == '.' || c == ';')), rxWsStar, .eol]

/-- Item pattern:
`(?:by\s+)?striking\s+(?:subparagraph|paragraph)\s*\(([A-Za-z0-9]+)\)\s+and\s+inserting\s+(?:the\s+following[:\s]+)?["\']?(.+?)["\']?\s*$`
(CI, DOTALL). -/
def ITEM_STRIKE_SUBPARA : Rx :=
  rxSeqL [byOpt, rxLitCI "striking", rxWsPlus,
    rxAltL [rxLitCI "subparagraph", rxLitCI "paragraph"], rxWsStar,
    rxChar '(', .grp 1 (rxPlusG alnumC), rxChar ')', rxWsPlus, rxLitCI "and",
    rxWsPlus, rxLitCI "inserting", rxWsPlus, theFollowingOpt,
    rxOpt (.sym asciiQuote), .grp 2 (rxPlusL anyC), rxOpt (.sym asciiQuote),
    rxWsStar, .eol]

/-- `_parse_single_amendment_item`: the four `re.search` attempts in source
order, each returning immediately on success. -/
def parse_single_amendment_item (item : Str) : List ParsedAmendment :=
  match rsearch ITEM_STRIKE_AT_END item with
  | some (_, _, caps) =>
    [{ amendment_type := .strike,
       text_to_strike := some ((getCap 2 caps).getD []),
       target_section :=
         some (str "subparagraph (" ++ (getCap 1 caps).getD [] ++ str ")"),
       raw_instruction := item,
       confidence := 90 }]
  | none =>
  match rsearch ITEM_STRIKE_WORD_INSERT item with
  | some (_, _, caps) =>
    let subpara := (getCap 1 caps).getD []
    let clause := (getCap 2 caps).getD []
    let strike_text := punctWord3 ((getCap 3 caps).getD [])
    let target := str "subparagraph (" ++ subpara ++ str ")"
      ++ (if clause.isEmpty then [] else str "(" ++ clause ++ str ")")
    [{ amendment_type := .strike_insert,
       text_to_strike := some strike_text,
       text_to_insert := some ((getCap 4 caps).getD []),
       target_section := some target,
       raw_instruction := item,
       confidence := 90 }]
  | none =>
  match rsearch ITEM_ADD_AT_END item with
  | some (_, _, caps) =>
    [{ amendment_type := .add_at_end,
       text_to_insert :=
         some (stripChars (str "\"'") (stripPy ((getCap 1 caps).getD []))),
       raw_instruction := item,
       confidence := 90 }]
  | none =>
  match rsearch ITEM_STRIKE_SUBPARA item with
  | some (_, _, caps) =>
    [{ amendment_type := .strike_insert,
       text_to_strike :=
         some (str "subparagraph (" ++ (getCap 1 caps).getD [] ++ str ")"),
       text_to_insert :=
         some (stripChars (str "\"'") (stripPy ((getCap 2 caps).getD []))),
       raw_instruction := item,
       confidence := 85 }]
  | none => []

/-- `_parse_numbered_amendments`: find the numbered block after
`is [further] amended—`, split it on `(\d+)` markers, and parse each
non-empty stripped item independently. -/
def parse_numbered_amendments (text : Str) : List ParsedAmendment :=
  match rsearch NUMBERED_AMENDMENT_PATTERN text with
  | none => []
  | some (_, _, caps) =>
    let numbered_text := (getCap 1 caps).getD []
    let items := ((rsplit NUMBERED_SPLIT_PATTERN numbered_text).map stripPy).filter
      (fun i => !i.isEmpty)
    items.flatMap parse_single_amendment_item

/-! ### Keyword fallback, deduplication and `parse` -/

/-- `_detect_from_keywords`: coarse low-confidence classification by
substring presence. -/
def detect_from_keywords (text : Str) : Option ParsedAmendment :=
  let text_lower := lowerS text
  if containsSub (str "striking") text_lower &&
      containsSub (str "inserting") text_lower then
    some { amendment_type := .strike_insert, raw_instruction := text.take 200,
           confidence := 50 }
  else if containsSub (str "inserting after") text_lower then
    some { amendment_type := .insert_after, raw_instruction := text.take 200,
           confidence := 50 }
  else if containsSub (str "read as follows") text_lower then
    some { amendment_type := .read_as_follows, raw_instruction := text.take 200,
           confidence := 50 }
  else if containsSub (str "adding at the end") text_lower then
    some { amendment_type := .add_at_end, raw_instruction := text.take 200,
           confidence := 50 }
  else if containsSub (str "striking") text_lower ||
      containsSub (str "deleting") text_lower then
    some { amendment_type := .strike, raw_instruction := text.take 200,
           confidence := 50 }
  else none

/-- Deduplication key: `(amendment_type, text_to_strike, text_to_insert)`. -/
abbrev DedupKey := AmendmentType × Option Str × Option Str

/-- Auxiliary for `_deduplicate_amendments`, carrying the `seen` set. -/
def dedupAux : List DedupKey → List ParsedAmendment → List ParsedAmendment
  | _, [] => []
  | seen, a :: rest =>
    let key : DedupKey := (a.amendment_type, a.text_to_strike, a.text_to_insert)
    if seen.contains key then dedupAux seen rest
    else a :: dedupAux (key :: seen) rest

/-- `_deduplicate_amendments`: keep the first amendment for each key. -/
def deduplicate_amendments (l : List ParsedAmendment) : List ParsedAmendment :=
  dedupAux [] l

/-- `is_amendment_context`: any amendment-indicator pattern matches. -/
def is_amendment_context (text : Str) : Bool :=
  AMENDMENT_INDICATOR_PATTERNS.any (fun p => (rsearch p text).isSome)

/-- Loop of `is_definitional_reference`: on the first definitional pattern
hit, answer is the absence of any amendment indicator. -/
def isDefRefLoop : List Rx → Str → Bool
  | [], _ => false
  | p :: ps, text =>
    if (rsearch p text).isSome then !(is_amendment_context text)
    else isDefRefLoop ps text

/-- `is_definitional_reference`. -/
def is_definitional_reference (text : Str) : Bool :=
  isDefRefLoop DEFINITIONAL_PATTERNS text

/-- The diagnostic message of the definitional-reference short circuit. -/
def DEFINITIONAL_MSG : Str :=
  str "Text appears to be a definitional reference, not an amendment"

/-- `AmendmentParser.parse`: normalize quotes, apply the
definitional-reference guard, run the recognizer cascade, deduplicate,
fall back to keywords, and attach a section reference. -/
def parse (text0 : Str) : AmendmentParseResult :=
  if text0.isEmpty then
    { success := false, error_message := some (str "No text provided") }
  else
    let text := normalize_quotes text0
    if is_definitional_reference text && !(is_amendment_context text) then
      { success := false, error_message := some DEFINITIONAL_MSG }
    else
      let amendments :=
        parse_numbered_amendments text
        ++ parse_strike_insert text
        ++ parse_strike_end_insert text
        ++ parse_strike_through_end text
        ++ parse_strike_subparagraphs text
        ++ parse_subparagraph_amendments text
        ++ parse_insert_after text
        ++ parse_insert_before text
        ++ parse_read_as_follows text
        ++ parse_add_at_end text
        ++ parse_add_at_beginning text
        ++ parse_strike_only text
        ++ parse_strike_each_place text
        ++ parse_redesignate text
      let deduped := deduplicate_amendments amendments
      let withFallback :=
        if deduped.isEmpty then
          match detect_from_keywords text with
          | some a => [a]
          | none => []
        else deduped
      let final :=
        match rsearch SECTION_REF_PATTERN text with
        | some (_, whole, _) =>
          withFallback.map (fun a => { a with target_section := some whole })
        | none => withFallback
      { amendments := final,
        unparsed_text := if final.isEmpty then text else [],
        success := !final.isEmpty }

end AmendmentParser

/-! ## Amendment Applier (`AmendmentApplier` in `amendment_parser.py`) -/

namespace AmendmentApplier

open AmendmentParser

/-- Regex `(subparagraph|paragraph|subsection)\s*\(([A-Za-z0-9]+)\)` (CI),
used with `re.match` to parse a structural reference. -/
def STRUCT_REF_PATTERN : Rx :=
  rxSeqL [.grp 1 (rxAltL [rxLitCI "subparagraph", rxLitCI "paragraph",
      rxLitCI "subsection"]),
    rxWsStar, rxChar '(', .grp 2 (rxPlusG alnumC), rxChar ')']

/-- Regex `subparagraphs?\s*\(([A-Z])\)\s+and\s+\(([A-Z])\)` (CI), used with
`re.match` to detect a two-element strike. -/
def MULTI_SUBPARA_PATTERN : Rx :=
  rxSeqL [rxLitCI "subparagraph", rxOpt (rxCharCI 's'), rxWsStar, rxChar '(',
    .grp 1 (.sym isAlphaC), rxChar ')', rxWsPlus, rxLitCI "and", rxWsPlus,
    rxChar '(', .grp 2 (.sym isAlphaC), rxChar ')']

/-- Element pattern for a subsection:
`\((id)\)\s+(.+?)(?=\n\s*\([a-z]\)|\Z)` with `re.IGNORECASE | re.DOTALL`
(the letter class is case-insensitive). -/
def SUBSECTION_ELEMENT_PATTERN (id : Str) : Rx :=
  rxSeqL [rxChar '(', .grp 1 (rxLitLCI id), rxChar ')', rxWsPlus,
    .grp 2 (rxPlusL anyC),
    .look false (rxAltL [
      rxSeqL [rxChar '\n', rxWsStar, rxChar '(', .sym isAlphaC, rxChar ')'],
      .eos])]

/-- Element pattern for a paragraph:
`\((id)\)\s+(.+?)(?=\n\s*\(\d+\)|\n\s*\([a-z]\)|\Z)` with `re.DOTALL`
(case-sensitive). -/
def PARAGRAPH_ELEMENT_PATTERN (id : Str) : Rx :=
  rxSeqL [rxChar '(', .grp 1 (rxLitL id), rxChar ')', rxWsPlus,
    .grp 2 (rxPlusL anyC),
    .look false (rxAltL [
      rxSeqL [rxChar '\n', rxWsStar, rxChar '(', rxDigitsPlus, rxChar ')'],
      rxSeqL [rxChar '\n', rxWsStar, rxChar '(', .sym isLowerC, rxChar ')'],
      .eos])]

/-- Element pattern for a subparagraph:
`\((id)\)\s+(.+?)(?=\n\s*\([A-Z]\)|\n\s*\(\d+\)|\n\s*\([a-z]\)|\Z)` with
`re.DOTALL` (case-sensitive). -/
def SUBPARAGRAPH_ELEMENT_PATTERN (id : Str) : Rx :=
  rxSeqL [rxChar '(', .grp 1 (rxLitL id), rxChar ')', rxWsPlus,
    .grp 2 (rxPlusL anyC),
    .look false (rxAltL [
      rxSeqL [rxChar '\n', rxWsStar, rxChar '(', .sym isUpperC, rxChar ')'],
      rxSeqL [rxChar '\n', rxWsStar, rxChar '(', rxDigitsPlus, rxChar ')'],
      rxSeqL [rxChar '\n', rxWsStar, rxChar '(', .sym isLowerC, rxChar ')'],
      .eos])]

/-- Fallback element pattern `\((id)\)\s*([^\n]+)` (CI). -/
def SIMPLE_ELEMENT_PATTERN (id : Str) : Rx :=
  rxSeqL [rxChar '(', .grp 1 (rxLitLCI id), rxChar ')', rxWsStar,
    .grp 2 (rxPlusG (fun c => c != '\n'))]

/-- `_find_structural_element`: locate a structural element, returning
`(start, end, stripped content)`. -/
def find_structural_element (text struct_type struct_id : Str) :
    Option (Nat × Nat × Str) :=
  let patOpt : Option Rx :=
    if struct_type == str "subsection" then
      some (SUBSECTION_ELEMENT_PATTERN struct_id)
    else if struct_type == str "paragraph" then
      some (PARAGRAPH_ELEMENT_PATTERN struct_id)
    else if struct_type == str "subparagraph" then
      some (SUBPARAGRAPH_ELEMENT_PATTERN struct_id)
    else none
  match patOpt with
  | none => none
  | some pat =>
    match rsearch pat text with
    | some (st, whole, caps) =>
      some (st, st + whole.length, stripPy ((getCap 2 caps).getD []))
    | none =>
      match rsearch (SIMPLE_ELEMENT_PATTERN struct_id) text with
      | some (st, whole, caps) =>
        some (st, st + whole.length, stripPy ((getCap 2 caps).getD []))
      | none => none

/-- The ordered `end_patterns` of `_apply_strike_through_end`:
`\.\s*\n`, `\.\s*$`, `\.\s*\([a-z]\)`, `\.\s*\(\d+\)` (all case-sensitive). -/
def END_PATTERNS : List Rx :=
  [rxSeqL [rxChar '.', rxWsStar, rxChar '\n'],
   rxSeqL [rxChar '.', rxWsStar, .eol],
   rxSeqL [rxChar '.', rxWsStar, rxChar '(', .sym isLowerC, rxChar ')'],
   rxSeqL [rxChar '.', rxWsStar, rxChar '(', rxDigitsPlus, rxChar ')']]

/-- First end pattern that matches the remaining text, returning the match
start. -/
def findEndLoop (remaining : Str) : List Rx → Option Nat
  | [] => none
  | p :: ps =>
    match rsearch p remaining with
    | some (st, _, _) => some st
    | none => findEndLoop remaining ps

/-- Success result of `_apply_strike_through_end`: everything from the
marker through `end_pos` is replaced by the insert text, with the
surrounding whitespace trimmed. -/
def strike_span (text insert_text : Str) (marker_pos end_pos : Nat) : Str × Bool :=
  (rstripPy (text.take marker_pos) ++ str " " ++ insert_text
    ++ lstripPy (text.drop end_pos), true)

/-- Body of `_apply_strike_through_end` once the marker has been located:
the end is the first end-pattern hit (plus one to include the period),
else the last period of the text if it lies beyond the marker. -/
def through_end_from (text insert_text : Str) (marker_pos : Nat) : Str × Bool :=
  match findEndLoop (text.drop marker_pos) END_PATTERNS with
  | some st => strike_span text insert_text marker_pos (marker_pos + st + 1)
  | none =>
    match rfindChar text '.' with
    | some last_period =>
      if last_period > marker_pos then
        strike_span text insert_text marker_pos (last_period + 1)
      else (text, false)
    | none => (text, false)

/-- `_apply_strike_through_end`: strike from the marker text (located
exactly, then case-insensitively) through the nearest provision-terminal
period, splicing in the insert text. -/
def apply_strike_through_end (text marker_text insert_text : Str) : Str × Bool :=
  match (match findSub marker_text text with
         | some p => some p
         | none => findSubCI marker_text text) with
  | none => (text, false)
  | some marker_pos => through_end_from text insert_text marker_pos

/-- `_apply_structural_strike_insert`: replace a whole structural element,
re-prefixing its marker.  (The source assigns `formatted_insert` twice,
with the same value on both paths.) -/
def apply_structural_strike_insert (text structural_ref insert_text : Str) :
    Str × Bool :=
  match tryAt STRUCT_REF_PATTERN structural_ref with
  | none => (text, false)
  | some (_, caps) =>
    let struct_type := lowerS ((getCap 1 caps).getD [])
    let struct_id := (getCap 2 caps).getD []
    match find_structural_element text struct_type struct_id with
    | none => (text, false)
    | some (start_pos, end_pos, _) =>
      let before := text.take start_pos
      let after := text.drop end_pos
      let formatted_insert := str "(" ++ struct_id ++ str ") " ++ insert_text
      (before ++ formatted_insert ++ after, true)

/-- `_apply_strike_insert`: dispatch on the strike text's special markers,
then literal first-occurrence replacement with a case-insensitive
fallback. -/
def apply_strike_insert (text : Str) (amendment : ParsedAmendment) : Str × Bool :=
  let strike_text := amendment.text_to_strike.getD []
  let insert_text := amendment.text_to_insert.getD []
  let is_all_that_follows :=
    containsSub (str "[and all that follows through end]") strike_text
  let is_each_place := containsSub (str "[each place it appears]") strike_text
  let is_structural :=
    (str "subparagraph (").isPrefixOf strike_text ||
    (str "paragraph (").isPrefixOf strike_text ||
    (str "subsection (").isPrefixOf strike_text
  if is_each_place then
    let actual_text := replaceAllPy (str " [each place it appears]") [] strike_text
    if containsSub actual_text text then
      (replaceAllPy actual_text insert_text text, true)
    else if (findSubCI actual_text text).isSome then
      (replaceAllCI actual_text insert_text text, true)
    else (text, false)
  else if is_all_that_follows then
    let actual_text :=
      replaceAllPy (str " [and all that follows through end]") [] strike_text
    apply_strike_through_end text actual_text insert_text
  else if is_structural then
    apply_structural_strike_insert text strike_text insert_text
  else if containsSub strike_text text then
    (replaceFirstPy strike_text insert_text text, true)
  else if (findSubCI strike_text text).isSome then
    (replaceFirstCI strike_text insert_text text, true)
  else (text, false)

/-- `_apply_insert_after`: splice the insert text right after the position
marker, prepending a space unless the insert already starts with one. -/
def apply_insert_after (text : Str) (amendment : ParsedAmendment) : Str × Bool :=
  let pm := amendment.position_marker.getD []
  let ins := amendment.text_to_insert.getD []
  let insert_text := if ([' '] : Str).isPrefixOf ins then ins else ' ' :: ins
  if containsSub pm text then
    (replaceFirstPy pm (pm ++ insert_text) text, true)
  else
    match findSubCI pm text with
    | some i =>
      let pos := i + pm.length
      (text.take pos ++ insert_text ++ text.drop pos, true)
    | none => (text, false)

/-- `_apply_insert_before`: splice the insert text right before the
position marker, appending a space unless the insert already ends with
one. -/
def apply_insert_before (text : Str) (amendment : ParsedAmendment) : Str × Bool :=
  let pm := amendment.position_marker.getD []
  let ins := amendment.text_to_insert.getD []
  let insert_text := if ([' '] : Str).isSuffixOf ins then ins else ins ++ [' ']
  if containsSub pm text then
    (replaceFirstPy pm (insert_text ++ pm) text, true)
  else
    match findSubCI pm text with
    | some i => (text.take i ++ insert_text ++ text.drop i, true)
    | none => (text, false)

/-- `_apply_read_as_follows`: the result is exactly the insert text. -/
def apply_read_as_follows (_ : Str) (amendment : ParsedAmendment) : Str × Bool :=
  (amendment.text_to_insert.getD [], true)

/-- `_apply_add_at_end`. -/
def apply_add_at_end (text : Str) (amendment : ParsedAmendment) : Str × Bool :=
  (rstripPy text ++ str "\n\n" ++ amendment.text_to_insert.getD [], true)

/-- `_apply_add_at_beginning`. -/
def apply_add_at_beginning (text : Str) (amendment : ParsedAmendment) : Str × Bool :=
  (amendment.text_to_insert.getD [] ++ str "\n\n" ++ lstripPy text, true)

/-- `_apply_structural_strike`: strike one whole structural element, or a
`subparagraphs (X) and (Y)` pair (removed left to right against the
shrinking text). -/
def apply_structural_strike (text structural_ref : Str) : Str × Bool :=
  match tryAt MULTI_SUBPARA_PATTERN structural_ref with
  | some (_, caps) =>
    let id1 := (getCap 1 caps).getD []
    let id2 := (getCap 2 caps).getD []
    let res := [id1, id2].foldl (fun acc sid =>
      match find_structural_element acc.1 (str "subparagraph") sid with
      | some (st, en, _) => (acc.1.take st ++ acc.1.drop en, true)
      | none => acc) ((text, false) : Str × Bool)
    if res.2 then (res.1, true) else (text, false)
  | none =>
    match tryAt STRUCT_REF_PATTERN structural_ref with
    | some (_, caps) =>
      let struct_type := lowerS ((getCap 1 caps).getD [])
      let struct_id := (getCap 2 caps).getD []
      match find_structural_element text struct_type struct_id with
      | some (st, en, _) => (text.take st ++ text.drop en, true)
      | none => (text, false)
    | none => (text, false)

/-- `_apply_strike`: remove the struck text, with the same special-marker
handling as `_apply_strike_insert` (note the structural prefixes here have
no trailing `" ("`). -/
def apply_strike (text : Str) (amendment : ParsedAmendment) : Str × Bool :=
  let strike_text := amendment.text_to_strike.getD []
  let is_each_place := containsSub (str "[each place it appears]") strike_text
  let is_structural :=
    (str "subparagraph").isPrefixOf strike_text ||
    (str "paragraph").isPrefixOf strike_text ||
    (str "subsection").isPrefixOf strike_text
  if is_each_place then
    let actual_text := replaceAllPy (str " [each place it appears]") [] strike_text
    if containsSub actual_text text then (replaceAllPy actual_text [] text, true)
    else if (findSubCI actual_text text).isSome then
      (replaceAllCI actual_text [] text, true)
    else (text, false)
  else if is_structural then
    apply_structural_strike text strike_text
  else if containsSub strike_text text then
    (replaceFirstPy strike_text [] text, true)
  else if (findSubCI strike_text text).isSome then
    (replaceFirstCI strike_text [] text, true)
  else (text, false)

/-- `AmendmentApplier.apply`: validity gate, then dispatch by kind.  Kinds
without a branch (`REDESIGNATE`, `UNKNOWN`) fall through to
`(original_text, False)`; the source's `try/except` wrapper has no effect
here because every handler is total. -/
def apply (original_text : Str) (amendment : ParsedAmendment) : Str × Bool :=
  if !amendment.is_valid then (original_text, false)
  else
    match amendment.amendment_type with
    | .strike_insert => apply_strike_insert original_text amendment
    | .insert_after => apply_insert_after original_text amendment
    | .insert_before => apply_insert_before original_text amendment
    | .read_as_follows => apply_read_as_follows original_text amendment
    | .add_at_end => apply_add_at_end original_text amendment
    | .add_at_beginning => apply_add_at_beginning original_text amendment
    | .strike => apply_strike original_text amendment
    | _ => (original_text, false)

end AmendmentApplier

/-! ## Quote-normalization lemmas -/

/-- Single-character substitution (what Python `str.replace` does for a
one-character pattern). -/
def substChar (a b c : Char) : Char := if a == c then b else c

theorem replaceAllPyAux_single (a b : Char) (t : Str) (n : Nat)
    (h : t.length ≤ n) : replaceAllPyAux [a] [b] n t = t.map (substChar a b) := by
  induction t generalizing n with
  | nil => cases n <;> rfl
  | cons c t ih =>
    cases n with
    | zero => simp at h
    | succ n =>
      simp only [List.length_cons, Nat.succ_le_succ_iff] at h
      simp only [replaceAllPyAux, List.isPrefixOf, List.map_cons, substChar]
      by_cases hac : a == c
      · simp [hac, List.drop_zero, ih n h]
      · simp [hac, ih n h]

theorem replaceAllPy_single (a b : Char) (t : Str) :
    replaceAllPy [a] [b] t = t.map (substChar a b) := by
  simp only [replaceAllPy, List.isEmpty_cons, Bool.false_eq_true, if_false]
  exact replaceAllPyAux_single a b t t.length (Nat.le_refl _)

/-- The composed character map performed by `normalize_quotes`. -/
def normChar (c : Char) : Char :=
  substChar '″' '"' (substChar '′' '\'' (substChar '‟' '"' (substChar '„' '"'
    (substChar '‛' '\'' (substChar '‚' '\'' (substChar '’' '\''
      (substChar '‘' '\'' (substChar '”' '"' (substChar '“' '"' c)))))))))

theorem normalize_quotes_eq_map (t : Str) :
    AmendmentParser.normalize_quotes t = t.map normChar := by
  simp only [AmendmentParser.normalize_quotes, AmendmentParser.QUOTE_NORMALIZATION,
    List.foldl_cons, List.foldl_nil, replaceAllPy_single, List.map_map]
  have h : (substChar '″' '"' ∘ substChar '′' '\'' ∘ substChar '‟' '"' ∘
      substChar '„' '"' ∘ substChar '‛' '\'' ∘ substChar '‚' '\'' ∘
      substChar '’' '\'' ∘ substChar '‘' '\'' ∘ substChar '”' '"' ∘
      substChar '“' '"') = normChar := by
    funext c
    simp only [Function.comp_apply]
    rfl
  rw [h]

theorem normChar_cases (c : Char) :
    normChar c = c ∨ normChar c = '"' ∨ normChar c = '\'' := by
  by_cases h1 : '“' = c
  · subst h1; decide
  by_cases h2 : '”' = c
  · subst h2; decide
  by_cases h3 : '‘' = c
  · subst h3; decide
  by_cases h4 : '’' = c
  · subst h4; decide
  by_cases h5 : '‚' = c
  · subst h5; decide
  by_cases h6 : '‛' = c
  · subst h6; decide
  by_cases h7 : '„' = c
  · subst h7; decide
  by_cases h8 : '‟' = c
  · subst h8; decide
  by_cases h9 : '′' = c
  · subst h9; decide
  by_cases h10 : '″' = c
  · subst h10; decide
  left
  have e1 : ('“' == c) = false := beq_eq_false_iff_ne.mpr h1
  have e2 : ('”' == c) = false := beq_eq_false_iff_ne.mpr h2
  have e3 : ('‘' == c) = false := beq_eq_false_iff_ne.mpr h3
  have e4 : ('’' == c) = false := beq_eq_false_iff_ne.mpr h4
  have e5 : ('‚' == c) = false := beq_eq_false_iff_ne.mpr h5
  have e6 : ('‛' == c) = false := beq_eq_false_iff_ne.mpr h6
  have e7 : ('„' == c) = false := beq_eq_false_iff_ne.mpr h7
  have e8 : ('‟' == c) = false := beq_eq_false_iff_ne.mpr h8
  have e9 : ('′' == c) = false := beq_eq_false_iff_ne.mpr h9
  have e10 : ('″' == c) = false := beq_eq_false_iff_ne.mpr h10
  simp [normChar, substChar, e1, e2, e3, e4, e5, e6, e7, e8, e9, e10]

theorem normChar_idem (c : Char) : normChar (normChar c) = normChar c := by
  rcases normChar_cases c with h | h | h <;> rw [h]
  · exact h
  · decide
  · decide

/-! ## Character-class lemmas -/

theorem isLowerC_not_digit (c : Char) (h : isLowerC c = true) :
    isDigitC c = false := by
  simp only [isLowerC, Bool.and_eq_true, decide_eq_true_eq] at h
  have hn : ¬ (c.toNat ≤ 57) := by omega
  simp [isDigitC, hn]

theorem isUpperC_not_digit (c : Char) (h : isUpperC c = true) :
    isDigitC c = false := by
  simp only [isUpperC, Bool.and_eq_true, decide_eq_true_eq] at h
  have hn : ¬ (c.toNat ≤ 57) := by omega
  simp [isDigitC, hn]

theorem isUpperC_not_lower (c : Char) (h : isUpperC c = true) :
    isLowerC c = false := by
  simp only [isUpperC, Bool.and_eq_true, decide_eq_true_eq] at h
  have hn : ¬ (97 ≤ c.toNat) := by omega
  simp [isLowerC, hn]

theorem roman_lower_char (c : Char)
    (h : SubsectionExtractor.isRomanLowerC c = true) :
    isDigitC c = false ∧ isLowerC c = true ∧ isAlphaC c = true ∧ c ≠ '\n' := by
  simp only [SubsectionExtractor.isRomanLowerC, Bool.or_eq_true, beq_iff_eq] at h
  rcases h with ((((((h | h) | h) | h) | h) | h) | h) <;> subst h <;>
    exact ⟨by decide, by decide, by decide, by decide⟩

theorem roman_upper_char (c : Char)
    (h : SubsectionExtractor.isRomanUpperC c = true) :
    isDigitC c = false ∧ isLowerC c = false ∧ isUpperC c = true ∧
      isAlphaC c = true ∧ c ≠ '\n' := by
  simp only [SubsectionExtractor.isRomanUpperC, Bool.or_eq_true, beq_iff_eq] at h
  rcases h with ((((((h | h) | h) | h) | h) | h) | h) <;> subst h <;>
    exact ⟨by decide, by decide, by decide, by decide, by decide⟩

/-! ## Claims -/

/-- C9: quote normalization is idempotent — for every text `T`,
`normalize_quotes (normalize_quotes T) = normalize_quotes T`. -/
theorem c9_normalize_quotes_idempotent (t : Str) :
    AmendmentParser.normalize_quotes (AmendmentParser.normalize_quotes t) =
      AmendmentParser.normalize_quotes t := by
  rw [normalize_quotes_eq_map, normalize_quotes_eq_map]
  induction t with
  | nil => rfl
  | cons c t ih =>
    simp only [List.map_cons]
    rw [normChar_idem, ih]

/-- C5: the Structural Navigator infers a marker's level purely from its
lexical form — digit strings give level 2 (paragraph); a single lowercase
letter gives level 1 (subsection) and a single uppercase letter level 3
(subparagraph), even for lexically valid Roman numerals such as bare `c`
or `i`; a multi-character lowercase Roman numeral gives level 4 (clause)
and a multi-character uppercase Roman numeral level 5 (subclause). -/
theorem c5_marker_level_lexical (s : Str) (c : Char) :
    (pyIsDigitS s = true → SubsectionExtractor.get_marker_level s = 2) ∧
    (isLowerC c = true → SubsectionExtractor.get_marker_level [c] = 1) ∧
    (isUpperC c = true → SubsectionExtractor.get_marker_level [c] = 3) ∧
    (2 ≤ s.length → s.all SubsectionExtractor.isRomanLowerC = true →
      SubsectionExtractor.get_marker_level s = 4) ∧
    (2 ≤ s.length → s.all SubsectionExtractor.isRomanUpperC = true →
      SubsectionExtractor.get_marker_level s = 5) := by
  refine ⟨?_, ?_, ?_, ?_, ?_⟩
  · intro h
    simp [SubsectionExtractor.get_marker_level, h]
  · intro h
    have hd := isLowerC_not_digit c h
    have ha : isAlphaC c = true := by simp [isAlphaC, h]
    simp [SubsectionExtractor.get_marker_level, pyIsDigitS, pyIsLowerS, hd, ha, h]
  · intro h
    have hd := isUpperC_not_digit c h
    have hl := isUpperC_not_lower c h
    have ha : isAlphaC c = true := by simp [isAlphaC, h]
    simp [SubsectionExtractor.get_marker_level, pyIsDigitS, pyIsLowerS,
      pyIsUpperS, hd, hl, ha, h]
  · intro hlen hall
    have hchars : ∀ x ∈ s, SubsectionExtractor.isRomanLowerC x = true := by
      simpa [List.all_eq_true] using hall
    obtain ⟨a, rest, rfl⟩ : ∃ a rest, s = a :: rest := by
      cases s with
      | nil => simp at hlen
      | cons a rest => exact ⟨a, rest, rfl⟩
    have hhead := roman_lower_char a (hchars a (by simp))
    have hdig : pyIsDigitS (a :: rest) = false := by
      simp [pyIsDigitS, hhead.1]
    have hlow : pyIsLowerS (a :: rest) = true := by
      simp only [pyIsLowerS, Bool.and_eq_true, List.any_eq_true, List.all_eq_true]
      refine ⟨⟨a, by simp, hhead.2.2.1⟩, ?_⟩
      intro x hx
      have hr := roman_lower_char x (hchars x hx)
      simp [hr.2.1]
    have hrest : rest ≠ [] := by
      cases rest with
      | nil => simp at hlen
      | cons _ _ => simp
    have hne : (a :: rest) ≠ [] := by simp
    have hgl : (a :: rest).getLast? = some ((a :: rest).getLast hne) :=
      List.getLast?_eq_getLast _ hne
    have hro := roman_lower_char _ (hchars _ (List.getLast_mem hne))
    have hbeq : ((a :: rest).getLast hne == '\n') = false :=
      beq_eq_false_iff_ne.mpr hro.2.2.2
    have hmatch : SubsectionExtractor.matchRomanLower (a :: rest) = true := by
      simp [SubsectionExtractor.matchRomanLower, hgl, hbeq, hall]
    simp [SubsectionExtractor.get_marker_level, hdig, hlow, hmatch, hrest]
  · intro hlen hall
    have hchars : ∀ x ∈ s, SubsectionExtractor.isRomanUpperC x = true := by
      simpa [List.all_eq_true] using hall
    obtain ⟨a, rest, rfl⟩ : ∃ a rest, s = a :: rest := by
      cases s with
      | nil => simp at hlen
      | cons a rest => exact ⟨a, rest, rfl⟩
    have hhead := roman_upper_char a (hchars a (by simp))
    have hdig : pyIsDigitS (a :: rest) = false := by
      simp [pyIsDigitS, hhead.1]
    have hlow : pyIsLowerS (a :: rest) = false := by
      simp [pyIsLowerS, List.all_cons, hhead.2.1, hhead.2.2.2.1]
    have hupp : pyIsUpperS (a :: rest) = true := by
      simp only [pyIsUpperS, Bool.and_eq_true, List.any_eq_true, List.all_eq_true]
      refine ⟨⟨a, by simp, hhead.2.2.2.1⟩, ?_⟩
      intro x hx
      have hr := roman_upper_char x (hchars x hx)
      simp [hr.2.2.1]
    have hrest : rest ≠ [] := by
      cases rest with
      | nil => simp at hlen
      | cons _ _ => simp
    have hne : (a :: rest) ≠ [] := by simp
    have hgl : (a :: rest).getLast? = some ((a :: rest).getLast hne) :=
      List.getLast?_eq_getLast _ hne
    have hro := roman_upper_char _ (hchars _ (List.getLast_mem hne))
    have hbeq : ((a :: rest).getLast hne == '\n') = false :=
      beq_eq_false_iff_ne.mpr hro.2.2.2.2
    have hmatch : SubsectionExtractor.matchRomanUpper (a :: rest) = true := by
      simp [SubsectionExtractor.matchRomanUpper, hgl, hbeq, hall]
    simp [SubsectionExtractor.get_marker_level, hdig, hlow, hupp, hmatch, hrest]

/-- Witness for C5 at concrete markers of each shape. -/
theorem c5_marker_level_lexical_witness :
    SubsectionExtractor.get_marker_level (str "12") = 2 ∧
    SubsectionExtractor.get_marker_level ['c'] = 1 ∧
    SubsectionExtractor.get_marker_level ['C'] = 3 ∧
    SubsectionExtractor.get_marker_level (str "ii") = 4 ∧
    SubsectionExtractor.get_marker_level (str "IV") = 5 :=
  ⟨(c5_marker_level_lexical (str "12") 'c').1 (by decide),
   (c5_marker_level_lexical (str "12") 'c').2.1 (by decide),
   (c5_marker_level_lexical (str "12") 'C').2.2.1 (by decide),
   (c5_marker_level_lexical (str "ii") 'c').2.2.2.1 (by decide) (by decide),
   (c5_marker_level_lexical (str "IV") 'c').2.2.2.2 (by decide) (by decide)⟩

/-- C10: extracting with an empty address notation from a non-empty text
succeeds and returns the full input text unchanged. -/
theorem c10_empty_address_whole_text (full_text : Str) (h : full_text ≠ []) :
    SubsectionExtractor.extract full_text [] =
      { success := true, subsection_ref := [], extracted_text := full_text,
        full_text := full_text, error_message := none } := by
  have he : full_text.isEmpty = false := by
    cases full_text with
    | nil => simp at h
    | cons a t => rfl
  simp [SubsectionExtractor.extract, he]

/-- Witness for C10 at a concrete statute text. -/
theorem c10_empty_address_whole_text_witness :
    SubsectionExtractor.extract (str "(a) Foo.") [] =
      { success := true, subsection_ref := [], extracted_text := str "(a) Foo.",
        full_text := str "(a) Foo.", error_message := none } :=
  c10_empty_address_whole_text (str "(a) Foo.") (by decide)

/-- C3 counterexample: on a failed lookup the returned outcome does NOT
carry the original full text as its extracted (result) text — the
extracted text is empty, refuting the claim as stated. -/
theorem c3_counterexample :
    (SubsectionExtractor.extract (str "(a) Foo.") (str "(z)")).success = false ∧
    (SubsectionExtractor.extract (str "(a) Foo.") (str "(z)")).extracted_text = [] ∧
    (SubsectionExtractor.extract (str "(a) Foo.") (str "(z)")).extracted_text ≠
      str "(a) Foo." := by decide

/-- C3 amended: whenever extraction fails, the outcome's extracted text is
empty and the original full text is carried in the separate `full_text`
field (callers fall back to the full text themselves). -/
theorem c3_failure_fallback (full_text subsection : Str)
    (h : (SubsectionExtractor.extract full_text subsection).success = false) :
    (SubsectionExtractor.extract full_text subsection).extracted_text = [] ∧
    (SubsectionExtractor.extract full_text subsection).full_text = full_text := by
  by_cases h1 : full_text.isEmpty
  · simp [SubsectionExtractor.extract, h1]
  · by_cases h2 : subsection.isEmpty
    · simp [SubsectionExtractor.extract, h1, h2] at h
    · by_cases h3 : (SubsectionExtractor.parse_subsection_notation subsection).isEmpty
      · simp [SubsectionExtractor.extract, h1, h2, h3]
      · cases h4 : SubsectionExtractor.extract_nested full_text
            (SubsectionExtractor.parse_subsection_notation subsection) with
        | none => simp [SubsectionExtractor.extract, h1, h2, h3, h4]
        | some e =>
          by_cases h5 : e.isEmpty
          · simp [SubsectionExtractor.extract, h1, h2, h3, h4, h5]
          · simp [SubsectionExtractor.extract, h1, h2, h3, h4, h5] at h

/-- Witness for C3 (amended) at a concrete failing lookup. -/
theorem c3_failure_fallback_witness :
    (SubsectionExtractor.extract (str "(a) Text here.") (str "(q)")).success = false ∧
    ((SubsectionExtractor.extract (str "(a) Text here.") (str "(q)")).extracted_text = [] ∧
     (SubsectionExtractor.extract (str "(a) Text here.") (str "(q)")).full_text =
       str "(a) Text here.") :=
  ⟨by decide, c3_failure_fallback _ _ (by decide)⟩

/-- The statute text of the C6 example. -/
def c6text : Str := str "(a) Foo. (b) Bar (1) First item. (2) Second item. (c) Baz."

/-- C6: locating address `(b)(1)` in the example text returns exactly the
span `(1) First item.`, not bleeding into the `(2)` sibling or the `(c)`
subsection. -/
theorem c6_locate_b1 :
    SubsectionExtractor.extract c6text (str "(b)(1)") =
      { success := true, subsection_ref := str "(b)(1)",
        extracted_text := str "(1) First item.", full_text := c6text,
        error_message := none } := by decide

theorem isDefRefLoop_eq (ps : List Rx) (t : Str) :
    AmendmentParser.isDefRefLoop ps t =
      (ps.any (fun p => (rsearch p t).isSome) &&
        !(AmendmentParser.is_amendment_context t)) := by
  induction ps with
  | nil => rfl
  | cons p ps ih =>
    simp only [AmendmentParser.isDefRefLoop, List.any_cons]
    by_cases h : (rsearch p t).isSome
    · simp [h]
    · simp [h, ih]

theorem is_definitional_reference_eq (t : Str) :
    AmendmentParser.is_definitional_reference t =
      (AmendmentParser.DEFINITIONAL_PATTERNS.any (fun p => (rsearch p t).isSome) &&
        !(AmendmentParser.is_amendment_context t)) :=
  isDefRefLoop_eq _ t

/-- C4: for non-empty input, `parse` short-circuits with success=false and
the definitional diagnostic exactly when, after quote normalization, some
definitional pattern matches and no amendment-indicator pattern matches. -/
theorem c4_definitional_guard (text : Str) (h : text ≠ []) :
    (AmendmentParser.parse text =
      { amendments := [], unparsed_text := [], success := false,
        error_message := some AmendmentParser.DEFINITIONAL_MSG }) ↔
    (AmendmentParser.DEFINITIONAL_PATTERNS.any
        (fun p => (rsearch p (AmendmentParser.normalize_quotes text)).isSome) = true ∧
     AmendmentParser.AMENDMENT_INDICATOR_PATTERNS.any
        (fun p => (rsearch p (AmendmentParser.normalize_quotes text)).isSome) = false) := by
  have he : text.isEmpty = false := by
    cases text with
    | nil => simp at h
    | cons a t => rfl
  unfold AmendmentParser.parse
  simp only [he, Bool.false_eq_true, if_false]
  by_cases hg : (AmendmentParser.is_definitional_reference
      (AmendmentParser.normalize_quotes text) &&
      !(AmendmentParser.is_amendment_context
        (AmendmentParser.normalize_quotes text))) = true
  · rw [if_pos hg]
    rw [is_definitional_reference_eq] at hg
    simp only [Bool.and_eq_true, Bool.not_eq_true'] at hg
    constructor
    · intro _
      exact ⟨hg.1.1, hg.1.2⟩
    · intro _
      rfl
  · rw [if_neg hg]
    constructor
    · intro hp
      have hmsg := congrArg AmendmentParser.AmendmentParseResult.error_message hp
      simp at hmsg
    · intro hrhs
      exfalso
      apply hg
      rw [is_definitional_reference_eq]
      have hic : AmendmentParser.is_amendment_context
          (AmendmentParser.normalize_quotes text) = false := hrhs.2
      simp [hrhs.1, hic]

/-- Witness for C4 at the spec's definitional example sentence. -/
theorem c4_definitional_guard_witness :
    (str "The term 'eligible entity' has the meaning given in section 501(c)(3)") ≠ [] ∧
    ((AmendmentParser.parse
        (str "The term 'eligible entity' has the meaning given in section 501(c)(3)") =
      { amendments := [], unparsed_text := [], success := false,
        error_message := some AmendmentParser.DEFINITIONAL_MSG }) ↔
    (AmendmentParser.DEFINITIONAL_PATTERNS.any
        (fun p => (rsearch p (AmendmentParser.normalize_quotes
          (str "The term 'eligible entity' has the meaning given in section 501(c)(3)"))).isSome) = true ∧
     AmendmentParser.AMENDMENT_INDICATOR_PATTERNS.any
        (fun p => (rsearch p (AmendmentParser.normalize_quotes
          (str "The term 'eligible entity' has the meaning given in section 501(c)(3)"))).isSome) = false)) :=
  ⟨by decide, c4_definitional_guard _ (by decide)⟩

/-- The C7 example's input text. -/
def c7input : Str :=
  str "is amended by striking 'December 31, 2023' and inserting 'December 31, 2029'"

/-- The single instruction C7 expects `parse` to produce. -/
def c7amendment : AmendmentParser.ParsedAmendment :=
  { amendment_type := AmendmentParser.AmendmentType.strike_insert,
    text_to_strike := some (str "December 31, 2023"),
    text_to_insert := some (str "December 31, 2029"),
    raw_instruction := str "by striking 'December 31, 2023' and inserting 'December 31, 2029'",
    confidence := 90 }

/-- C7: parsing the example yields success=true and exactly one
`STRIKE_INSERT` instruction with strike text `December 31, 2023` and
insert text `December 31, 2029`; no other recognizer stage survives
deduplication. -/
theorem c7_strike_insert_example :
    AmendmentParser.parse c7input =
      { amendments := [c7amendment], unparsed_text := [], success := true,
        error_message := none } := by decide

/-! ### C1: applying a Redesignate instruction -/

/-- A concrete Redesignate instruction as the recognizer would build it. -/
def c1instr : AmendmentParser.ParsedAmendment :=
  { amendment_type := AmendmentParser.AmendmentType.redesignate,
    text_to_strike := some (str "subsection (c)"),
    text_to_insert := some (str "subsection (d)"),
    raw_instruction := str "by redesignating subsection (c) as subsection (d)",
    confidence := 85 }

/-- C1 counterexample: applying a Redesignate instruction returns the text
unchanged but with success=false, not success=true as the claim states —
Redesignate has no case in `is_valid` (hence is never valid) and no
dispatch branch in `apply`. -/
theorem c1_counterexample :
    AmendmentApplier.apply (str "(c) Some text.") c1instr =
      (str "(c) Some text.", false) ∧
    AmendmentApplier.apply (str "(c) Some text.") c1instr ≠
      (str "(c) Some text.", true) := by decide

/-- C1 amended: for every target text and every instruction of kind
Redesignate, `apply` returns the text unchanged with success=false (the
instruction is treated as invalid and non-substitutive; no textual
transformation is performed). -/
theorem c1_redesignate_unchanged (text : Str)
    (a : AmendmentParser.ParsedAmendment)
    (h : a.amendment_type = AmendmentParser.AmendmentType.redesignate) :
    AmendmentApplier.apply text a = (text, false) := by
  have hv : a.is_valid = false := by
    unfold AmendmentParser.ParsedAmendment.is_valid
    rw [h]
  unfold AmendmentApplier.apply
  rw [hv]
  simp

/-- Witness for C1 (amended) at a concrete Redesignate instruction. -/
theorem c1_redesignate_unchanged_witness :
    AmendmentApplier.apply (str "hello world") c1instr = (str "hello world", false) :=
  c1_redesignate_unchanged (str "hello world") c1instr (by rfl)

/-! ### C2: plain strike-and-insert -/

/-- Empty-test of a non-empty list. -/
theorem ne_nil_isEmpty_false {l : Str} (h : l ≠ []) : l.isEmpty = false := by
  cases l with
  | nil => simp at h
  | cons a t => rfl

/-- A valid plain StrikeAndInsert instruction striking `a`, inserting `b`. -/
def c2instr : AmendmentParser.ParsedAmendment :=
  { amendment_type := AmendmentParser.AmendmentType.strike_insert,
    text_to_strike := some (str "a"),
    text_to_insert := some (str "b"),
    raw_instruction := str "by striking 'a' and inserting 'b'",
    confidence := 90 }

/-- C2 counterexample: the strike text `a` occurs twice in `a a`; apply
succeeds, but the result `b a` still contains the strike text, refuting
the claim that the result no longer contains it. -/
theorem c2_counterexample :
    AmendmentParser.ParsedAmendment.is_valid c2instr = true ∧
    containsSub (str "a") (str "a a") = true ∧
    AmendmentApplier.apply (str "a a") c2instr = (str "b a", true) ∧
    containsSub (str "a") (AmendmentApplier.apply (str "a a") c2instr).1 = true := by
  decide

/-- C2 amended: for a valid plain StrikeAndInsert (no special markers, no
structural prefix) whose strike text occurs verbatim in the target, apply
succeeds and the result is exactly the target with the first occurrence of
the strike text replaced by the insert text (later occurrences are left
untouched). -/
theorem c2_strike_insert_replace_first (text strike insert : Str)
    (a : AmendmentParser.ParsedAmendment)
    (htype : a.amendment_type = AmendmentParser.AmendmentType.strike_insert)
    (hstr : a.text_to_strike = some strike)
    (hins : a.text_to_insert = some insert)
    (hsne : strike ≠ []) (hine : insert ≠ [])
    (hm1 : containsSub (str "[and all that follows through end]") strike = false)
    (hm2 : containsSub (str "[each place it appears]") strike = false)
    (hp1 : (str "subparagraph (").isPrefixOf strike = false)
    (hp2 : (str "paragraph (").isPrefixOf strike = false)
    (hp3 : (str "subsection (").isPrefixOf strike = false)
    (hin : containsSub strike text = true) :
    AmendmentApplier.apply text a = (replaceFirstPy strike insert text, true) := by
  have hv : a.is_valid = true := by
    unfold AmendmentParser.ParsedAmendment.is_valid
    rw [htype, hstr, hins]
    simp [AmendmentParser.truthy, ne_nil_isEmpty_false hsne,
      ne_nil_isEmpty_false hine]
  unfold AmendmentApplier.apply
  rw [hv]
  simp only [Bool.not_true, Bool.false_eq_true, if_false, htype]
  unfold AmendmentApplier.apply_strike_insert
  rw [hstr, hins]
  simp [hm1, hm2, hp1, hp2, hp3, hin]

/-- A second concrete strike-and-insert instruction for the C2 witness. -/
def c2winstr : AmendmentParser.ParsedAmendment :=
  { amendment_type := AmendmentParser.AmendmentType.strike_insert,
    text_to_strike := some (str "me"),
    text_to_insert := some (str "you"),
    raw_instruction := str "by striking 'me' and inserting 'you'",
    confidence := 90 }

/-- Witness for C2 (amended) at a concrete input. -/
theorem c2_strike_insert_replace_first_witness :
    AmendmentApplier.apply (str "strike me not") c2winstr =
      (replaceFirstPy (str "me") (str "you") (str "strike me not"), true) :=
  c2_strike_insert_replace_first (str "strike me not") (str "me") (str "you")
    c2winstr (by rfl) (by rfl) (by rfl) (by decide) (by decide) (by decide)
    (by decide) (by decide) (by decide) (by decide) (by decide)

/-! ### C8: apply is atomic on failure -/

theorem through_end_from_atomic (t i : Str) (mp : Nat)
    (h : (AmendmentApplier.through_end_from t i mp).2 = false) :
    (AmendmentApplier.through_end_from t i mp).1 = t := by
  unfold AmendmentApplier.through_end_from at h ⊢
  cases hE : AmendmentApplier.findEndLoop (t.drop mp) AmendmentApplier.END_PATTERNS with
  | some st => simp [hE, AmendmentApplier.strike_span] at h
  | none =>
    cases hP : rfindChar t '.' with
    | none => simp [hE, hP]
    | some lp =>
      simp only [hE, hP] at h ⊢
      by_cases hc : lp > mp
      · simp [hc, AmendmentApplier.strike_span] at h
      · simp [hc]

theorem apply_strike_through_end_atomic (t m i : Str)
    (h : (AmendmentApplier.apply_strike_through_end t m i).2 = false) :
    (AmendmentApplier.apply_strike_through_end t m i).1 = t := by
  unfold AmendmentApplier.apply_strike_through_end at h ⊢
  cases h1 : findSub m t with
  | some p =>
    simp only [h1] at h ⊢
    exact through_end_from_atomic t i p h
  | none =>
    cases h2 : findSubCI m t with
    | none => simp [h1, h2]
    | some q =>
      simp only [h1, h2] at h ⊢
      exact through_end_from_atomic t i q h

theorem structural_si_atomic (t r i : Str)
    (h : (AmendmentApplier.apply_structural_strike_insert t r i).2 = false) :
    (AmendmentApplier.apply_structural_strike_insert t r i).1 = t := by
  unfold AmendmentApplier.apply_structural_strike_insert at h ⊢
  cases hT : tryAt AmendmentApplier.STRUCT_REF_PATTERN r with
  | none => simp [hT]
  | some pc =>
    obtain ⟨whole, caps⟩ := pc
    simp only [hT] at h ⊢
    cases hF : AmendmentApplier.find_structural_element t
        (lowerS ((getCap 1 caps).getD [])) ((getCap 2 caps).getD []) with
    | none => simp [hF]
    | some spn =>
      obtain ⟨st, en, content⟩ := spn
      simp [hF] at h

theorem res_gate_atomic (t : Str) (res : Str × Bool)
    (h : (if res.2 = true then (res.1, true) else (t, false)).2 = false) :
    (if res.2 = true then (res.1, true) else (t, false)).1 = t := by
  by_cases hr : res.2 = true
  · simp [hr] at h
  · simp [hr]

theorem structural_strike_atomic (t r : Str)
    (h : (AmendmentApplier.apply_structural_strike t r).2 = false) :
    (AmendmentApplier.apply_structural_strike t r).1 = t := by
  unfold AmendmentApplier.apply_structural_strike at h ⊢
  cases hM : tryAt AmendmentApplier.MULTI_SUBPARA_PATTERN r with
  | some pc =>
    obtain ⟨whole, caps⟩ := pc
    simp only [hM] at h ⊢
    exact res_gate_atomic t _ h
  | none =>
    simp only [hM] at h ⊢
    cases hT : tryAt AmendmentApplier.STRUCT_REF_PATTERN r with
    | none => simp [hT]
    | some pc =>
      obtain ⟨whole, caps⟩ := pc
      simp only [hT] at h ⊢
      cases hF : AmendmentApplier.find_structural_element t
          (lowerS ((getCap 1 caps).getD [])) ((getCap 2 caps).getD []) with
      | none => simp [hF]
      | some spn =>
        obtain ⟨st, en, content⟩ := spn
        simp [hF] at h

theorem strike_insert_atomic (t : Str) (a : AmendmentParser.ParsedAmendment)
    (h : (AmendmentApplier.apply_strike_insert t a).2 = false) :
    (AmendmentApplier.apply_strike_insert t a).1 = t := by
  unfold AmendmentApplier.apply_strike_insert at h ⊢
  simp only [] at h ⊢
  split_ifs at h ⊢ <;> solve
    | rfl
    | (apply apply_strike_through_end_atomic; assumption)
    | (apply structural_si_atomic; assumption)

theorem insert_after_atomic (t : Str) (a : AmendmentParser.ParsedAmendment)
    (h : (AmendmentApplier.apply_insert_after t a).2 = false) :
    (AmendmentApplier.apply_insert_after t a).1 = t := by
  unfold AmendmentApplier.apply_insert_after at h ⊢
  simp only [] at h ⊢
  cases hci : findSubCI (a.position_marker.getD []) t with
  | none => split_ifs at h ⊢ <;> simp_all [hci]
  | some i => split_ifs at h ⊢ <;> simp_all [hci]

theorem insert_before_atomic (t : Str) (a : AmendmentParser.ParsedAmendment)
    (h : (AmendmentApplier.apply_insert_before t a).2 = false) :
    (AmendmentApplier.apply_insert_before t a).1 = t := by
  unfold AmendmentApplier.apply_insert_before at h ⊢
  simp only [] at h ⊢
  cases hci : findSubCI (a.position_marker.getD []) t with
  | none => split_ifs at h ⊢ <;> simp_all [hci]
  | some i => split_ifs at h ⊢ <;> simp_all [hci]

theorem strike_atomic (t : Str) (a : AmendmentParser.ParsedAmendment)
    (h : (AmendmentApplier.apply_strike t a).2 = false) :
    (AmendmentApplier.apply_strike t a).1 = t := by
  unfold AmendmentApplier.apply_strike at h ⊢
  simp only [] at h ⊢
  split_ifs at h ⊢ <;> solve
    | rfl
    | (apply structural_strike_atomic; assumption)

/-- C8: `apply` is atomic on failure — whenever it returns success=false,
the returned text equals the input text byte-for-byte; there is no
partially modified output. -/
theorem c8_apply_atomic_on_failure (text : Str)
    (a : AmendmentParser.ParsedAmendment)
    (h : (AmendmentApplier.apply text a).2 = false) :
    (AmendmentApplier.apply text a).1 = text := by
  unfold AmendmentApplier.apply at h ⊢
  by_cases hv : a.is_valid = true
  · simp only [hv, Bool.not_true, Bool.false_eq_true, if_false] at h ⊢
    cases ht : a.amendment_type <;> simp only [ht] at h ⊢
    · exact strike_insert_atomic text a h
    · exact insert_after_atomic text a h
    · exact insert_before_atomic text a h
    · simp [AmendmentApplier.apply_read_as_follows] at h
    · simp [AmendmentApplier.apply_add_at_end] at h
    · simp [AmendmentApplier.apply_add_at_beginning] at h
    · exact strike_atomic text a h
  · rw [Bool.not_eq_true] at hv
    simp [hv]

/-- A strike instruction whose strike text does not occur in the target,
so `apply` fails. -/
def c8winstr : AmendmentParser.ParsedAmendment :=
  { amendment_type := AmendmentParser.AmendmentType.strike,
    text_to_strike := some (str "xyz"),
    text_to_insert := none,
    raw_instruction := str "by striking 'xyz'",
    confidence := 90 }

/-- Witness for C8 at a concrete failing apply (strike text absent). -/
theorem c8_apply_atomic_on_failure_witness :
    (AmendmentApplier.apply (str "hello") c8winstr).2 = false ∧
    (AmendmentApplier.apply (str "hello") c8winstr).1 = str "hello" :=
  ⟨by decide, c8_apply_atomic_on_failure (str "hello") c8winstr (by decide)⟩

end LegRedline
